import Mathlib

/-!
Verification development for the `toolkit-data` repository: a shallow
embedding, in Lean, of its four Python scripts —

* `sync_to_cdn.py` (namespace `CdnSync`): walk a local directory and upload
  each regular file to a cloud bucket under a destination prefix, skipping
  keys that already exist;
* `validate_packages.py` (namespace `Validate`): hand-checked validation of
  `modules/packages.toml` and of each referenced module directory;
* `scripts/validate_packages.py` (namespace `Scripts`): schema-object
  (pydantic) validation of the same manifest layout;
* `scripts/build_packages.py` (namespace `BuildPackages`): zip up the
  `modules` directory, excluding cache and VCS directories.

Filesystem and network are modelled explicitly: a `FSys` record answers
path-existence queries and TOML reads, a `World` record carries the CDN
bucket state, and every run produces a trace of events (existence checks,
TOML reads, printed lines, network calls) together with its outcome, so
that theorems can speak about exit codes, diagnostic text, and which
external calls a run performs.
-/

/-- Single-quote character, used when assembling diagnostic messages that
quote package, module and field names. -/
def qc : String := String.singleton (Char.ofNat 39)

/-- Values produced by `tomllib.load`: TOML strings, integers, booleans,
arrays and tables.  A table keeps its key/value pairs in file order
(`tomllib` rejects duplicate keys, so lookup takes the first match). -/
inductive Toml where
  | str (s : String)
  | int (n : Int)
  | bool (b : Bool)
  | arr (xs : List Toml)
  | table (kvs : List (String × Toml))

/-- Dictionary lookup on the key/value list of a TOML table. -/
def tomlLookup (kvs : List (String × Toml)) (k : String) : Option Toml :=
  match kvs with
  | [] => none
  | (k2, v) :: rest => if k2 = k then some v else tomlLookup rest k

/-- Python truthiness of a TOML value (`if not x`): empty strings, zero,
`False`, empty lists and empty dicts are falsy. -/
def Toml.truthy : Toml → Bool
  | .str s => !s.isEmpty
  | .int n => decide (n ≠ 0)
  | .bool b => b
  | .arr xs => !xs.isEmpty
  | .table kvs => !kvs.isEmpty

/-- Python `len` on a TOML value; raises `TypeError` on ints and bools. -/
def pyLen : Toml → Except String Nat
  | .str s => .ok s.length
  | .arr xs => .ok xs.length
  | .table kvs => .ok kvs.length
  | .int _ => .error "object of type int has no len()"
  | .bool _ => .error "object of type bool has no len()"

/-- Filesystem oracle shared by the validation and build scripts:
`pathExists` models `Path.exists` / `os.path.exists`, and `readToml`
models opening a file and running `tomllib.load` on it, returning either
the parsed top-level table or the decode-error text. -/
structure FSys where
  pathExists : String → Bool
  readToml : String → Except String (List (String × Toml))

/-- Observable events of a validator run: a path-existence query, a TOML
read, or a line printed to standard output. -/
inductive Ev where
  | checkPath (p : String)
  | readFile (p : String)
  | line (s : String)
deriving DecidableEq

/-- Joining of a base path with a relative component, modelling
`pathlib.Path.__truediv__` for the relative paths this repository uses. -/
def joinPath (a b : String) : String := a ++ "/" ++ b

/-- Python `str.endswith`, modelled on the underlying character lists. -/
def pyEndswith (s suffix : String) : Bool := List.isSuffixOf suffix.data s.data

/-- Python `not v.strip()`: the string is empty after stripping
whitespace, i.e. every character is whitespace. -/
def pyBlank (s : String) : Bool := s.data.all Char.isWhitespace

namespace CdnSync

/-- Name of the environment variable holding the service-account JSON. -/
def SECRET_KEY : String := "APPS_CDN_SERVICE_ACCOUNT_CREDENTIALS"

/-- Destination bucket name (`BUCKET_NAME` in `sync_to_cdn.py`). -/
def BUCKET_NAME : String := "apps-cdn-bucket-cognitedata-production"

/-- Local directory that is synced (`LOCAL_DIR` in `sync_to_cdn.py`). -/
def LOCAL_DIR : String := "data"

/-- Destination prefix in the bucket (`DEST_PREFIX` in `sync_to_cdn.py`). -/
def DEST_PREFIX : String := "toolkit"

/-- One entry yielded by `local_path.rglob` with its `is_file` answer.
`path` is the full path as a list of components, starting with the
components of the local directory itself, as `rglob` yields it. -/
structure Entry where
  path : List String
  isFile : Bool
deriving DecidableEq

/-- Rendering of a `pathlib.Path` from its components. -/
def renderPath : List String → String
  | [] => "."
  | [c] => c
  | c :: rest => c ++ "/" ++ renderPath rest

/-- Components left after dropping the last two, i.e. the components of
`file_path.parents[1]` (for paths of length at least two, the only case
`rglob` under a one-component local directory produces). -/
def parentsOne (p : List String) : List String := p.dropLast.dropLast

/-- Model of `Path.relative_to` for a base that is a prefix of the path:
drop the base components. -/
def relative_to (p base : List String) : List String := p.drop base.length

/-- Destination key computed by `upload_file`:
`f"{destPfx}/{file_path.relative_to(file_path.parents[1])}"`. -/
def blob_name (file_path : List String) (destPfx : String) : String :=
  destPfx ++ "/" ++ renderPath (relative_to file_path (parentsOne file_path))

/-- Network calls a sync run can make: the one-time authentication, a
`blob.exists()` check, and a `blob.upload_from_filename` upload. -/
inductive NetEv where
  | auth
  | existsCheck (key : String)
  | upload (key : String)
deriving DecidableEq

/-- Result of `upload_file` (and of the file loop): network events, printed
lines, resulting bucket contents, and the list of keys actually uploaded. -/
structure UpRes where
  net : List NetEv
  msgs : List String
  bucket : List String
  uploads : List String
deriving DecidableEq

/-- Model of `upload_file`: compute the destination key, check whether the
blob exists, and either skip or upload (an upload adds the key to the
bucket). -/
def upload_file (bucket : List String) (file_path : List String)
    (destPfx : String) : UpRes :=
  let bn := blob_name file_path destPfx
  if bn ∈ bucket then
    ⟨[.existsCheck bn],
     ["Skipping " ++ renderPath file_path ++ ", already exists in bucket as "
        ++ bn ++ "."],
     bucket, []⟩
  else
    ⟨[.existsCheck bn, .upload bn],
     ["Uploading " ++ renderPath file_path ++ " to " ++ bn ++ "..."],
     bucket ++ [bn], [bn]⟩

/-- The `for file_path in local_path.rglob("*")` loop of
`sync_local_to_gcs`: process entries in order, uploading each one that is a
regular file. -/
def syncLoop (bucket : List String) (destPfx : String) :
    List Entry → UpRes
  | [] => ⟨[], [], bucket, []⟩
  | e :: rest =>
    if e.isFile then
      let r1 := upload_file bucket e.path destPfx
      let r2 := syncLoop r1.bucket destPfx rest
      ⟨r1.net ++ r2.net, r1.msgs ++ r2.msgs, r2.bucket, r1.uploads ++ r2.uploads⟩
    else
      syncLoop bucket destPfx rest

/-- State a sync run starts from: whether the local path is a directory,
the entries `rglob` yields under it, the credential environment variable,
and the keys already present in the bucket. -/
structure World where
  isDir : Bool
  entries : List Entry
  env : Option String
  bucket : List String

/-- Python falsiness of `os.environ.get(SECRET_KEY)`: unset, or set to the
empty string. -/
def falsyEnv : Option String → Bool
  | none => true
  | some s => s.isEmpty

/-- Outcome of a whole `sync_to_cdn.py` process run. -/
structure SyncRes where
  exitCode : Nat
  msgs : List String
  net : List NetEv
  bucket : List String
  uploads : List String
deriving DecidableEq

/-- Model of `sync_local_to_gcs` run as a script: if the local path is not
a directory it prints an error and returns (the process then exits 0); if
the credential variable is unset or empty it raises
`ValueError(f"{SECRET_KEY} not set in the environment.")`, terminating the
process with a non-zero status; otherwise it authenticates once and runs
the upload loop. -/
def sync_local_to_gcs (w : World) (local_dir destPfx : String) : SyncRes :=
  if w.isDir = false then
    ⟨0, ["Error: " ++ local_dir ++ " is not a valid directory."], [],
     w.bucket, []⟩
  else if falsyEnv w.env then
    ⟨1, [SECRET_KEY ++ " not set in the environment."], [], w.bucket, []⟩
  else
    let r := syncLoop w.bucket destPfx w.entries
    ⟨0, r.msgs, NetEv.auth :: r.net, r.bucket, r.uploads⟩

end CdnSync

namespace BuildPackages

/-- Directory names pruned from the walk in `create_modules_zip`. -/
def EXCLUDED_DIRS : List String := ["__pycache__", ".pytest_cache", ".git"]

/-- A directory tree: regular files and directories with named children. -/
inductive FTree where
  | file (name : String)
  | dir (name : String) (children : List FTree)

/-- Files directly inside a list of children, as paths relative to the
archive root (`rel` is the relative path of the containing directory). -/
def filesHere (rel : List String) (cs : List FTree) : List (List String) :=
  cs.filterMap fun c =>
    match c with
    | .file n => some (rel ++ [n])
    | .dir _ _ => none

/-- The recursive part of the `os.walk` loop in `create_modules_zip`: for
each subdirectory whose name survives the
`dirs[:] = [d for d in dirs if d not in [...]]` pruning, add its files and
recurse; pruned directories are not entered at all. -/
def walkSubdirs (rel : List String) : List FTree → List (List String)
  | [] => []
  | .file _ :: rest => walkSubdirs rel rest
  | .dir n cs :: rest =>
    (if n ∈ EXCLUDED_DIRS then []
     else filesHere (rel ++ [n]) cs ++ walkSubdirs (rel ++ [n]) cs)
      ++ walkSubdirs rel rest

/-- Archive entry names (`arcname = file_path.relative_to(modules_dir)`)
produced by `create_modules_zip` when walking a `modules` directory with
the given children: the walk starts at the root (whose own files come
first) and then descends into non-pruned subdirectories. -/
def create_modules_zip_entries (modulesChildren : List FTree) :
    List (List String) :=
  filesHere [] modulesChildren ++ walkSubdirs [] modulesChildren

/-- All regular files in a list of trees, as relative paths (no pruning). -/
def allFiles : List FTree → List (List String)
  | [] => []
  | .file n :: rest => [n] :: allFiles rest
  | .dir n cs :: rest => (allFiles cs).map (fun p => n :: p) ++ allFiles rest

/-- Directory components of a relative file path: every component except
the final file name. -/
def dirComponents (p : List String) : List String := p.dropLast

/-- A relative file path none of whose directory components is an
excluded (cache or VCS) directory name. -/
def keepEntry (p : List String) : Bool :=
  (dirComponents p).all fun c => !(decide (c ∈ EXCLUDED_DIRS))

/-- Modelled from the spec: the set of regular files under the source
directory whose path contains no directory component named `__pycache__`,
`.pytest_cache` or `.git`, each named by its path relative to the source
directory. -/
def specEntries (modulesChildren : List FTree) : List (List String) :=
  (allFiles modulesChildren).filter keepEntry

/-- Output-name normalisation in `create_modules_zip`: default to
`packages.zip`, then append `.zip` unless the name already ends in it. -/
def create_modules_zip_output_name (output_name : Option String) : String :=
  let n :=
    match output_name with
    | none => "packages.zip"
    | some s => s
  if pyEndswith n ".zip" then n else n ++ ".zip"

end BuildPackages

namespace Validate

/-- Exceptions that can escape the validation helpers of
`validate_packages.py` and reach the `try`/`except` in `main`:
`tomllib.TOMLDecodeError`, `KeyError`, and `TypeError`-like failures of
dynamic operations (membership tests or indexing on non-dict values,
iteration over non-lists).  The latter two are modelled only as far as the
generic `except Exception` handler needs. -/
inductive PyErr where
  | tomlDecode (m : String)
  | keyError (k : String)
  | typeError (m : String)

/-- Rendering of an exception by the two `except` clauses of `main`:
`TOMLDecodeError` has its own message, everything else is reported as an
unexpected error (`KeyError` displays its key in quotes). -/
def renderPyErr : PyErr → String
  | .tomlDecode m => "ERROR: Invalid TOML format: " ++ m
  | .keyError k => "ERROR: Unexpected error: " ++ qc ++ k ++ qc
  | .typeError m => "ERROR: Unexpected error: " ++ m

/-- Result of one validation helper: the events it produced (in order) and
either the returned boolean or the exception it raised. -/
abbrev VRes := List Ev × Except PyErr Bool

/-- Python `isinstance(v, str)` on a TOML value. -/
def isStr : Toml → Bool
  | .str _ => true
  | _ => false

/-- A TOML value that is a string with non-whitespace content, i.e. Python
`isinstance(v, str) and v.strip()`. -/
def isNonBlankStr : Toml → Bool
  | .str s => !(pyBlank s)
  | _ => false

/-- Model of `validate_library_header`: require a `library` table, require
its `description` field, and require that field to be a truthy string.
The `title` field is never consulted.  A non-table `library` value makes
the `in` test / indexing raise. -/
def validate_library_header (data : List (String × Toml)) : VRes :=
  match tomlLookup data "library" with
  | none => ([.line "ERROR: Missing [library] header"], .ok false)
  | some (.table lib) =>
    match tomlLookup lib "description" with
    | none =>
      ([.line ("ERROR: [library] section missing " ++ qc ++ "description"
          ++ qc ++ " field")], .ok false)
    | some d =>
      if !d.truthy || !(isStr d) then
        ([.line "ERROR: [library] description must be a non-empty string"],
         .ok false)
      else
        ([.line "✓ [library] header validation passed"], .ok true)
  | some _ => ([], .error (.typeError "argument of type is not iterable"))

/-- Model of `validate_packages`: require a `packages` key with a truthy
value, then report how many packages were found. -/
def validate_packages (data : List (String × Toml)) : VRes :=
  match tomlLookup data "packages" with
  | none => ([.line "ERROR: Missing [packages] section"], .ok false)
  | some packages =>
    if !packages.truthy then
      ([.line "ERROR: No packages defined"], .ok false)
    else
      match pyLen packages with
      | .error m => ([], .error (.typeError m))
      | .ok n =>
        ([.line ("✓ Found " ++ toString n ++ " packages")], .ok true)

/-- Message for a missing required field of a package. -/
def msgMissingField (package_name field : String) : String :=
  "ERROR: Package " ++ qc ++ package_name ++ qc ++ " missing " ++ qc
    ++ field ++ qc ++ " field"

/-- Model of `validate_package_structure`: the four required fields in
declaration order, then non-blank `title` and `description`, then `modules`
a non-empty list. -/
def validate_package_structure (package_name : String) (pd : Toml) : VRes :=
  match pd with
  | .table kvs =>
    match tomlLookup kvs "title" with
    | none => ([.line (msgMissingField package_name "title")], .ok false)
    | some title =>
      match tomlLookup kvs "description" with
      | none => ([.line (msgMissingField package_name "description")], .ok false)
      | some desc =>
        match tomlLookup kvs "modules" with
        | none => ([.line (msgMissingField package_name "modules")], .ok false)
        | some mods =>
          match tomlLookup kvs "id" with
          | none => ([.line (msgMissingField package_name "id")], .ok false)
          | some _ =>
            if !isNonBlankStr title then
              ([.line ("ERROR: Package " ++ qc ++ package_name ++ qc
                  ++ " title must be a non-empty string")], .ok false)
            else if !isNonBlankStr desc then
              ([.line ("ERROR: Package " ++ qc ++ package_name ++ qc
                  ++ " description must be a non-empty string")], .ok false)
            else
              match mods with
              | .arr ms =>
                if ms.length = 0 then
                  ([.line ("ERROR: Package " ++ qc ++ package_name ++ qc
                      ++ " modules list cannot be empty")], .ok false)
                else
                  ([.line ("✓ Package " ++ qc ++ package_name ++ qc
                      ++ " structure validation passed")], .ok true)
              | _ =>
                ([.line ("ERROR: Package " ++ qc ++ package_name ++ qc
                    ++ " modules must be a list")], .ok false)
  | _ => ([], .error (.typeError "argument of type is not iterable"))

/-- Python `type(...)` rendering used in the non-string module path error. -/
def pyTypeName : Toml → String
  | .str _ => "<class " ++ qc ++ "str" ++ qc ++ ">"
  | .int _ => "<class " ++ qc ++ "int" ++ qc ++ ">"
  | .bool _ => "<class " ++ qc ++ "bool" ++ qc ++ ">"
  | .arr _ => "<class " ++ qc ++ "list" ++ qc ++ ">"
  | .table _ => "<class " ++ qc ++ "dict" ++ qc ++ ">"

/-- The `for extra_resource in extra_resources` loop of
`validate_module_paths`: each entry must be a table with a string
`location`, and `base_path / location` must exist; the first missing one
fails with a message naming that resolved path. -/
def extraLoop (fs : FSys) (package_name module_path base_path : String) :
    List Toml → VRes
  | [] => ([], .ok true)
  | er :: rest =>
    match er with
    | .table ekvs =>
      match tomlLookup ekvs "location" with
      | none => ([], .error (.keyError "location"))
      | some (.str loc) =>
        let full_path := joinPath base_path loc
        if fs.pathExists full_path = false then
          ([.checkPath full_path,
            .line ("ERROR: Package " ++ qc ++ package_name ++ qc ++ " module "
              ++ qc ++ module_path ++ qc ++ " refers to a non-existent file: "
              ++ full_path)], .ok false)
        else
          let (evs, r) := extraLoop fs package_name module_path base_path rest
          (Ev.checkPath full_path :: evs, r)
      | some _ =>
        ([], .error (.typeError "unsupported operand type for path join"))
    | _ => ([], .error (.typeError "value is not subscriptable"))

/-- Validation of a single entry of a package's `modules` list inside
`validate_module_paths`: the entry must be a string; `base_path/<entry>`
and its `module.toml` must exist; the descriptor must parse, its `module`
table must carry `id`, `package_id` and `title`; and every extra resource
must exist. -/
def checkModule (fs : FSys) (package_name base_path : String) (mp : Toml) :
    VRes :=
  match mp with
  | .str module_path =>
    let full_path := joinPath base_path module_path
    if fs.pathExists full_path = false then
      ([.checkPath full_path,
        .line ("ERROR: Package " ++ qc ++ package_name ++ qc ++ " module path "
          ++ qc ++ module_path ++ qc ++ " does not exist at " ++ qc
          ++ full_path ++ qc)], .ok false)
    else
      let module_toml := joinPath full_path "module.toml"
      if fs.pathExists module_toml = false then
        ([.checkPath full_path, .checkPath module_toml,
          .line ("ERROR: Package " ++ qc ++ package_name ++ qc
            ++ " module path " ++ qc ++ module_path ++ qc
            ++ " does not have a module.toml file and is not a valid module")],
         .ok false)
      else
        let pre : List Ev :=
          [.checkPath full_path, .checkPath module_toml, .readFile module_toml]
        match fs.readToml module_toml with
        | .error e => (pre, .error (.tomlDecode e))
        | .ok module_data =>
          match tomlLookup module_data "module" with
          | none => (pre, .error (.keyError "module"))
          | some (.table mkvs) =>
            let missing :=
              ["id", "package_id", "title"].filter
                fun f => (tomlLookup mkvs f).isNone
            if !missing.isEmpty then
              (pre ++ [.line ("ERROR: Package " ++ qc ++ package_name ++ qc
                ++ " module path " ++ qc ++ module_path ++ qc
                ++ " does not have the following required fields: "
                ++ toString missing)], .ok false)
            else
              let extra_resources : Except PyErr (List Toml) :=
                match tomlLookup module_data "extra_resources" with
                | some (.arr xs) => .ok xs
                | none => .ok []
                | some _ => .error (PyErr.typeError "value is not iterable")
              match extra_resources with
              | .error e => (pre, .error e)
              | .ok ers =>
                let (evs, r) :=
                  extraLoop fs package_name module_path base_path ers
                match r with
                | .ok true =>
                  (pre ++ evs ++ [.line ("✓ Module " ++ qc ++ module_path
                    ++ qc ++ " validated successfully")], .ok true)
                | other => (pre ++ evs, other)
          | some _ =>
            (pre, .error (.typeError "object has no attribute keys"))
  | _ =>
    ([.line ("ERROR: Package " ++ qc ++ package_name ++ qc
      ++ " module path must be a string, got " ++ pyTypeName mp)], .ok false)

/-- The `for module_path in modules` loop of `validate_module_paths`: stop
at the first failing module, otherwise validate them all. -/
def modulesLoop (fs : FSys) (package_name base_path : String) :
    List Toml → VRes
  | [] => ([], .ok true)
  | mp :: rest =>
    let (evs, r) := checkModule fs package_name base_path mp
    match r with
    | .ok true =>
      let (evs2, r2) := modulesLoop fs package_name base_path rest
      (evs ++ evs2, r2)
    | other => (evs, other)

/-- Model of `validate_module_paths`: the base path must exist, then every
entry of the `modules` list is checked in order. -/
def validate_module_paths (fs : FSys) (package_name : String)
    (modules : List Toml) (base_path : String) : VRes :=
  if fs.pathExists base_path = false then
    ([.checkPath base_path,
      .line ("ERROR: Base path " ++ qc ++ base_path ++ qc
        ++ " does not exist")], .ok false)
  else
    let (evs, r) := modulesLoop fs package_name base_path modules
    (Ev.checkPath base_path :: evs, r)

/-- The per-package loop of `main`: announce the package, validate its
structure, then validate its module paths; `main` exits 1 as soon as either
returns `False`. -/
def packagesLoop (fs : FSys) : List (String × Toml) → VRes
  | [] => ([], .ok true)
  | (package_name, package_data) :: rest =>
    let hdr : List Ev := [.line ("\nValidating package: " ++ package_name)]
    let (evs1, r1) := validate_package_structure package_name package_data
    match r1 with
    | .ok true =>
      let mods :=
        match package_data with
        | .table kvs =>
          match tomlLookup kvs "modules" with
          | some (.arr ms) => Except.ok ms
          | some _ => Except.error (PyErr.typeError "value is not iterable")
          | none => Except.error (PyErr.keyError "modules")
        | _ => Except.error (PyErr.typeError "value is not subscriptable")
      match mods with
      | .error e => (hdr ++ evs1, .error e)
      | .ok ms =>
        let (evs2, r2) := validate_module_paths fs package_name ms "modules"
        match r2 with
        | .ok true =>
          let (evs3, r3) := packagesLoop fs rest
          (hdr ++ evs1 ++ evs2 ++ evs3, r3)
        | other => (hdr ++ evs1 ++ evs2, other)
    | other => (hdr ++ evs1, other)

/-- Fixed manifest location used by `main`. -/
def packages_file : String := "modules/packages.toml"

/-- Model of `main` in `validate_packages.py`: check that the manifest
exists, parse it, run the header, packages and per-package validations in
order, and exit 1 on the first failure or escaped exception (printing the
corresponding diagnostic), 0 on full success. -/
def main (fs : FSys) : List Ev × Nat :=
  if fs.pathExists packages_file = false then
    ([.checkPath packages_file,
      .line ("ERROR: " ++ packages_file ++ " not found")], 1)
  else
    let pre0 : List Ev := [.checkPath packages_file, .readFile packages_file]
    match fs.readToml packages_file with
    | .error e => (pre0 ++ [.line (renderPyErr (.tomlDecode e))], 1)
    | .ok data =>
      let pre := pre0 ++ [.line ("✓ Successfully parsed " ++ packages_file)]
      let (e1, r1) := validate_library_header data
      match r1 with
      | .error e => (pre ++ e1 ++ [.line (renderPyErr e)], 1)
      | .ok false => (pre ++ e1, 1)
      | .ok true =>
        let (e2, r2) := validate_packages data
        match r2 with
        | .error e => (pre ++ e1 ++ e2 ++ [.line (renderPyErr e)], 1)
        | .ok false => (pre ++ e1 ++ e2, 1)
        | .ok true =>
          match tomlLookup data "packages" with
          | some (.table pkgs) =>
            let (e3, r3) := packagesLoop fs pkgs
            match r3 with
            | .error e =>
              (pre ++ e1 ++ e2 ++ e3 ++ [.line (renderPyErr e)], 1)
            | .ok false => (pre ++ e1 ++ e2 ++ e3, 1)
            | .ok true =>
              (pre ++ e1 ++ e2 ++ e3
                ++ [.line ("\n🎉 All validation checks passed! "
                  ++ toString pkgs.length
                  ++ " packages validated successfully.")], 0)
          | some _ =>
            (pre ++ e1 ++ e2
              ++ [.line (renderPyErr
                (.typeError "object has no attribute items"))], 1)
          | none =>
            (pre ++ e1 ++ e2 ++ [.line (renderPyErr (.keyError "packages"))], 1)

end Validate

namespace Scripts

/-- Parsed `library` section (`Library` pydantic model). -/
structure Library where
  title : String
  description : String

/-- Parsed package entry (`Package` pydantic model). -/
structure Package where
  title : String
  id : String
  description : String
  modules : List String
  canCherryPick : Bool

/-- Parsed `module` sub-table of a `module.toml` (`Module` pydantic model). -/
structure Module where
  id : String
  package_id : String
  title : String
  is_selected_by_default : Bool

/-- Parsed extra-resource entry (`ExtraResource` pydantic model). -/
structure ExtraResource where
  location : String

/-- Parsed `module.toml` file (`ModuleToml` pydantic model). -/
structure ModuleToml where
  module : Module
  extra_resources : List ExtraResource

/-- Parsed `packages.toml` file (`PackagesToml` pydantic model). -/
structure PackagesToml where
  library : Library
  packages : List (String × Package)

/-- Validation of one `field: str = Field(min_length=1)` declaration: the
field must be present, be a string, and have length at least one.  The
error strings stand in for pydantic's own rendering; theorems never rely
on their exact wording, only on the repository-controlled wrappers around
them. -/
def reqStr (ctx : String) (kvs : List (String × Toml)) (field : String) :
    Except String String :=
  match tomlLookup kvs field with
  | none => .error (ctx ++ field ++ ": Field required")
  | some (.str s) =>
    if s.length = 0 then
      .error (ctx ++ field ++ ": String should have at least 1 character")
    else .ok s
  | some _ => .error (ctx ++ field ++ ": Input should be a valid string")

/-- The shared `validate_non_empty_string` field validator: reject values
that are blank after stripping. -/
def stripValidator (ctx field s : String) : Except String String :=
  if pyBlank s then
    .error (ctx ++ field ++ ": Value error, Must be a non-empty string")
  else .ok s

/-- Validation of a `bool = Field(default=...)` declaration. -/
def optBool (ctx : String) (kvs : List (String × Toml)) (field : String)
    (dflt : Bool) : Except String Bool :=
  match tomlLookup kvs field with
  | none => .ok dflt
  | some (.bool b) => .ok b
  | some _ => .error (ctx ++ field ++ ": Input should be a valid boolean")

/-- Construction of the `Library` model from a TOML value. -/
def parseLibrary (ctx : String) (t : Toml) : Except String Library :=
  match t with
  | .table kvs =>
    match reqStr ctx kvs "title" with
    | .error e => .error e
    | .ok title0 =>
      match stripValidator ctx "title" title0 with
      | .error e => .error e
      | .ok title =>
        match reqStr ctx kvs "description" with
        | .error e => .error e
        | .ok description0 =>
          match stripValidator ctx "description" description0 with
          | .error e => .error e
          | .ok description => .ok ⟨title, description⟩
  | _ => .error (ctx ++ ": Input should be a valid dictionary")

/-- Validation of `modules: list[str] = Field(min_length=1)`: every element
must be a string. -/
def parseStrList (ctx : String) : List Toml → Except String (List String)
  | [] => .ok []
  | .str s :: rest =>
    match parseStrList ctx rest with
    | .error e => .error e
    | .ok tl => .ok (s :: tl)
  | _ :: _ => .error (ctx ++ ": Input should be a valid string")

/-- Construction of the `Package` model from a TOML value. -/
def parsePackage (ctx : String) (t : Toml) : Except String Package :=
  match t with
  | .table kvs =>
    match reqStr ctx kvs "title" with
    | .error e => .error e
    | .ok title0 =>
      match stripValidator ctx "title" title0 with
      | .error e => .error e
      | .ok title =>
        match reqStr ctx kvs "id" with
        | .error e => .error e
        | .ok id0 =>
          match stripValidator ctx "id" id0 with
          | .error e => .error e
          | .ok id =>
            match reqStr ctx kvs "description" with
            | .error e => .error e
            | .ok description0 =>
              match stripValidator ctx "description" description0 with
              | .error e => .error e
              | .ok description =>
                match tomlLookup kvs "modules" with
                | none => .error (ctx ++ "modules: Field required")
                | some (.arr xs) =>
                  if xs.length = 0 then
                    .error (ctx ++ "modules: List should have at least 1 item")
                  else
                    match parseStrList (ctx ++ "modules") xs with
                    | .error e => .error e
                    | .ok modules =>
                      match optBool ctx kvs "canCherryPick" true with
                      | .error e => .error e
                      | .ok canCherryPick =>
                        .ok ⟨title, id, description, modules, canCherryPick⟩
                | some _ =>
                  .error (ctx ++ "modules: Input should be a valid list")
  | _ => .error (ctx ++ ": Input should be a valid dictionary")

/-- Construction of the `Module` model (no strip validator here, only
`min_length=1`). -/
def parseModule (ctx : String) (t : Toml) : Except String Module :=
  match t with
  | .table kvs =>
    match reqStr ctx kvs "id" with
    | .error e => .error e
    | .ok id =>
      match reqStr ctx kvs "package_id" with
      | .error e => .error e
      | .ok package_id =>
        match reqStr ctx kvs "title" with
        | .error e => .error e
        | .ok title =>
          match optBool ctx kvs "is_selected_by_default" true with
          | .error e => .error e
          | .ok sel => .ok ⟨id, package_id, title, sel⟩
  | _ => .error (ctx ++ ": Input should be a valid dictionary")

/-- Construction of the `ExtraResource` model. -/
def parseExtraResource (ctx : String) (t : Toml) :
    Except String ExtraResource :=
  match t with
  | .table kvs =>
    match reqStr ctx kvs "location" with
    | .error e => .error e
    | .ok location => .ok ⟨location⟩
  | _ => .error (ctx ++ ": Input should be a valid dictionary")

/-- Construction of every `ExtraResource` in an `extra_resources` list. -/
def parseExtraResources (ctx : String) :
    List Toml → Except String (List ExtraResource)
  | [] => .ok []
  | t :: rest =>
    match parseExtraResource ctx t with
    | .error e => .error e
    | .ok hd =>
      match parseExtraResources ctx rest with
      | .error e => .error e
      | .ok tl => .ok (hd :: tl)

/-- Construction of the `ModuleToml` model from a parsed `module.toml`. -/
def parseModuleToml (kvs : List (String × Toml)) : Except String ModuleToml :=
  match tomlLookup kvs "module" with
  | none => .error "module: Field required"
  | some m =>
    match parseModule "module." m with
    | .error e => .error e
    | .ok module =>
      match tomlLookup kvs "extra_resources" with
      | none => .ok ⟨module, []⟩
      | some (.arr xs) =>
        match parseExtraResources "extra_resources." xs with
        | .error e => .error e
        | .ok extra_resources => .ok ⟨module, extra_resources⟩
      | some _ =>
        .error "extra_resources: Input should be a valid list"

/-- Construction of every `Package` of the `packages` dictionary. -/
def parsePackagesTable :
    List (String × Toml) → Except String (List (String × Package))
  | [] => .ok []
  | (name, t) :: rest =>
    match parsePackage ("packages." ++ name ++ ".") t with
    | .error e => .error e
    | .ok pkg =>
      match parsePackagesTable rest with
      | .error e => .error e
      | .ok tl => .ok ((name, pkg) :: tl)

/-- Construction of the `PackagesToml` model from the parsed manifest:
`library` is required, and `packages` is a dictionary with at least one
entry (`Field(min_length=1)`). -/
def parsePackagesToml (kvs : List (String × Toml)) :
    Except String PackagesToml :=
  match tomlLookup kvs "library" with
  | none => .error "library: Field required"
  | some lib =>
    match parseLibrary "library." lib with
    | .error e => .error e
    | .ok library =>
      match tomlLookup kvs "packages" with
      | none => .error "packages: Field required"
      | some (.table pkgs) =>
        if pkgs.length = 0 then
          .error "packages: Dictionary should have at least 1 item"
        else
          match parsePackagesTable pkgs with
          | .error e => .error e
          | .ok packages => .ok ⟨library, packages⟩
      | some _ => .error "packages: Input should be a valid dictionary"

/-- The extra-resource loop of `validate_module_path`: each resource is
resolved against the validator's base path (not the module directory) and
must exist. -/
def extraResLoop (fs : FSys) (base_path package_name module_path : String) :
    List ExtraResource → List Ev × Except String Unit
  | [] => ([], .ok ())
  | er :: rest =>
    let resource_path := joinPath base_path er.location
    if fs.pathExists resource_path = false then
      ([.checkPath resource_path],
       .error ("ERROR: Package " ++ qc ++ package_name ++ qc ++ " module "
         ++ qc ++ module_path ++ qc ++ " refers to a non-existent file: "
         ++ resource_path))
    else
      let (evs, r) := extraResLoop fs base_path package_name module_path rest
      (Ev.checkPath resource_path :: evs, r)

/-- Model of `PackageValidator.validate_module_path`: the module directory
and its `module.toml` must exist, the descriptor must parse as TOML and as
a `ModuleToml` model, and every extra resource must exist; each failure
raises an error whose message names the package and module. -/
def validate_module_path (fs : FSys)
    (base_path package_name module_path : String) :
    List Ev × Except String Unit :=
  let full_path := joinPath base_path module_path
  if fs.pathExists full_path = false then
    ([.checkPath full_path],
     .error ("ERROR: Package " ++ qc ++ package_name ++ qc ++ " module path "
       ++ qc ++ module_path ++ qc ++ " does not exist at " ++ qc ++ full_path
       ++ qc))
  else
    let module_toml_path := joinPath full_path "module.toml"
    if fs.pathExists module_toml_path = false then
      ([.checkPath full_path, .checkPath module_toml_path],
       .error ("ERROR: Package " ++ qc ++ package_name ++ qc
         ++ " module path " ++ qc ++ module_path ++ qc
         ++ " does not have a module.toml file and is not a valid module"))
    else
      let pre : List Ev :=
        [.checkPath full_path, .checkPath module_toml_path,
         .readFile module_toml_path]
      match fs.readToml module_toml_path with
      | .error e =>
        (pre, .error ("ERROR: Package " ++ qc ++ package_name ++ qc
          ++ " module " ++ qc ++ module_path ++ qc
          ++ " has invalid TOML in module.toml: " ++ e))
      | .ok module_data =>
        match parseModuleToml module_data with
        | .error e =>
          (pre, .error ("ERROR: Package " ++ qc ++ package_name ++ qc
            ++ " module " ++ qc ++ module_path ++ qc
            ++ " has invalid module.toml structure: " ++ e))
        | .ok mt =>
          let (evs, r) :=
            extraResLoop fs base_path package_name module_path
              mt.extra_resources
          match r with
          | .ok _ =>
            (pre ++ evs ++ [.line ("✓ Module " ++ qc ++ module_path ++ qc
              ++ " validated successfully")], .ok ())
          | .error e => (pre ++ evs, .error e)

/-- Model of `validate_package_modules`: validate each module path of a
package in order, stopping at the first raised error. -/
def packageModulesLoop (fs : FSys) (base_path package_name : String) :
    List String → List Ev × Except String Unit
  | [] => ([], .ok ())
  | mp :: rest =>
    let (evs, r) := validate_module_path fs base_path package_name mp
    match r with
    | .ok _ =>
      let (e2, r2) := packageModulesLoop fs base_path package_name rest
      (evs ++ e2, r2)
    | .error e => (evs, .error e)

/-- The per-package loop of `PackageValidator.validate`. -/
def validatePackagesLoop (fs : FSys) (base_path : String) :
    List (String × Package) → List Ev × Except String Unit
  | [] => ([], .ok ())
  | (package_name, pkg) :: rest =>
    let hdr : List Ev :=
      [.line ("\nValidating package: " ++ package_name),
       .line ("✓ Package " ++ qc ++ package_name ++ qc
         ++ " structure validation passed")]
    let (evs, r) := packageModulesLoop fs base_path package_name pkg.modules
    match r with
    | .ok _ =>
      let (e2, r2) := validatePackagesLoop fs base_path rest
      (hdr ++ evs ++ e2, r2)
    | .error e => (hdr ++ evs, .error e)

/-- Model of `PackageValidator.validate` with the default base path
`modules`: base path and manifest must exist, the manifest must parse as
TOML and as a `PackagesToml` model, and then every package's modules are
validated. -/
def validate (fs : FSys) : List Ev × Except String Unit :=
  if fs.pathExists "modules" = false then
    ([.checkPath "modules"],
     .error ("ERROR: Base path " ++ qc ++ "modules" ++ qc
       ++ " does not exist"))
  else if fs.pathExists "modules/packages.toml" = false then
    ([.checkPath "modules", .checkPath "modules/packages.toml"],
     .error "ERROR: modules/packages.toml not found")
  else
    let pre0 : List Ev :=
      [.checkPath "modules", .checkPath "modules/packages.toml",
       .readFile "modules/packages.toml"]
    match fs.readToml "modules/packages.toml" with
    | .error e => (pre0, .error ("ERROR: Invalid TOML format: " ++ e))
    | .ok data =>
      let pre := pre0 ++ [Ev.line "✓ Successfully parsed modules/packages.toml"]
      match parsePackagesToml data with
      | .error e =>
        (pre, .error ("ERROR: Invalid packages.toml structure: " ++ e))
      | .ok pt =>
        let pre2 := pre
          ++ [Ev.line "✓ [library] header validation passed",
              Ev.line ("✓ Found " ++ toString pt.packages.length
                ++ " packages")]
        let (evs, r) := validatePackagesLoop fs "modules" pt.packages
        match r with
        | .ok _ =>
          (pre2 ++ evs ++ [.line ("\n🎉 All validation checks passed! "
            ++ toString pt.packages.length
            ++ " packages validated successfully.")], .ok ())
        | .error e => (pre2 ++ evs, .error e)

/-- Model of `main` in `scripts/validate_packages.py`: run the validator,
print the raised error (if any) and exit 1, otherwise exit 0. -/
def main (fs : FSys) : List Ev × Nat :=
  let (evs, r) := validate fs
  match r with
  | .ok _ => (evs, 0)
  | .error e => (evs ++ [.line e], 1)

end Scripts

/-- Lines printed during a run, extracted from its event trace. -/
def printedLines (evs : List Ev) : List String :=
  evs.filterMap fun e =>
    match e with
    | .line s => some s
    | _ => none

/-- Paths whose existence a run queried, extracted from its event trace. -/
def checkedPaths (evs : List Ev) : List String :=
  evs.filterMap fun e =>
    match e with
    | .checkPath p => some p
    | _ => none

/-- A line is an error diagnostic when it starts with `ERROR`. -/
def isErrMsg (s : String) : Bool := decide ("ERROR".data <+: s.data)

/-- Substring test: `strHas s sub` holds when `sub` occurs inside `s`. -/
def strHas (s sub : String) : Bool := decide (sub.data <:+: s.data)

/-- A trace during which some error diagnostic was printed. -/
def hasErrLine (evs : List Ev) : Prop :=
  ∃ s ∈ printedLines evs, isErrMsg s = true

/-- A trace during which no error diagnostic was printed. -/
def noErrLine (evs : List Ev) : Prop :=
  ∀ s ∈ printedLines evs, isErrMsg s = false

/-- Concrete manifest whose library header has a description but no title,
and one well-formed package `alpha` with one module `beta`. -/
def dataNoTitle : List (String × Toml) :=
  [("library", Toml.table [("description", Toml.str "A library")]),
   ("packages", Toml.table [("alpha", Toml.table
     [("title", Toml.str "T"), ("description", Toml.str "D"),
      ("modules", Toml.arr [Toml.str "beta"]), ("id", Toml.str "alpha")])])]

/-- Concrete well-formed `module.toml` for the module `beta`. -/
def modBeta : List (String × Toml) :=
  [("module", Toml.table [("id", Toml.str "beta"),
    ("package_id", Toml.str "alpha"), ("title", Toml.str "B")])]

/-- Concrete filesystem in which `modules/packages.toml` parses to
`dataNoTitle` and the module `beta` is fully present and well-formed. -/
def fsNoTitle : FSys :=
  ⟨fun p => decide (p ∈ ["modules/packages.toml", "modules", "modules/beta",
     "modules/beta/module.toml"]),
   fun p =>
     if p = "modules/packages.toml" then .ok dataNoTitle
     else if p = "modules/beta/module.toml" then .ok modBeta
     else .error "missing"⟩

/-- Concrete filesystem like `fsNoTitle` except that reading
`modules/beta/module.toml` fails with a TOML syntax error. -/
def fsBadModuleToml : FSys :=
  ⟨fsNoTitle.pathExists,
   fun p =>
     if p = "modules/packages.toml" then .ok dataNoTitle
     else .error "invalid statement (at line 1, column 1)"⟩

/-- Parsed `module.toml` table whose module section is complete and whose
`extra_resources` list holds one entry with the given location. -/
def extraResourceModule (i pid t loc : String) : List (String × Toml) :=
  [("module", Toml.table [("id", Toml.str i), ("package_id", Toml.str pid),
     ("title", Toml.str t)]),
   ("extra_resources", Toml.arr [Toml.table [("location", Toml.str loc)]])]

/-- Concrete filesystem whose module `beta` is present and well-formed but
whose extra resource `data/extra.csv` does not exist anywhere. -/
def fsExtraMissing : FSys :=
  ⟨fun p => decide (p ∈ ["modules", "modules/beta",
     "modules/beta/module.toml"]),
   fun p =>
     if p = "modules/beta/module.toml" then
       .ok (extraResourceModule "beta" "alpha" "B" "data/extra.csv")
     else .error "missing"⟩

/-- Concrete filesystem whose manifest has a well-formed library header
and an empty `packages` table. -/
def fsEmptyPackages : FSys :=
  ⟨fun p => decide (p ∈ ["modules", "modules/packages.toml"]),
   fun p =>
     if p = "modules/packages.toml" then
       .ok [("library", Toml.table [("title", Toml.str "L"),
              ("description", Toml.str "Desc")]),
            ("packages", Toml.table [])]
     else .error "missing"⟩

/-! General lemmas about diagnostic-message classification and traces. -/

theorem prefix_of_prefix_append {α : Type} {p l1 l2 : List α}
    (hlen : p.length ≤ l1.length) (h : p <+: l1 ++ l2) : p <+: l1 := by
  rw [List.prefix_iff_eq_take] at h ⊢
  rw [List.take_append_of_le_length hlen] at h
  exact h

theorem isErrMsg_true_mono (a b : String) (h : isErrMsg a = true) :
    isErrMsg (a ++ b) = true := by
  unfold isErrMsg at h ⊢
  rw [decide_eq_true_eq] at h ⊢
  rw [String.data_append]
  exact h.trans (List.prefix_append _ _)

theorem isErrMsg_false_mono (a b : String) (h : isErrMsg a = false)
    (hl : "ERROR".data.length ≤ a.data.length) : isErrMsg (a ++ b) = false := by
  unfold isErrMsg at h ⊢
  rw [decide_eq_false_iff_not] at h ⊢
  rw [String.data_append]
  intro hc
  exact h (prefix_of_prefix_append hl hc)

theorem isPrefixOf_append_self {α : Type} [BEq α] [LawfulBEq α]
    (l r : List α) : List.isPrefixOf l (l ++ r) = true := by
  induction l with
  | nil => simp [List.isPrefixOf]
  | cons a l ih => simp [List.cons_append, List.isPrefixOf_cons₂, ih]

theorem pyEndswith_append (a b : String) : pyEndswith (a ++ b) b = true := by
  unfold pyEndswith List.isSuffixOf
  rw [String.data_append, List.reverse_append]
  exact isPrefixOf_append_self _ _

theorem strHas_of_eq (s pre sub post : String)
    (h : s = pre ++ (sub ++ post)) : strHas s sub = true := by
  unfold strHas
  rw [decide_eq_true_eq, h, String.data_append, String.data_append]
  exact ⟨pre.data, post.data, List.append_assoc _ _ _⟩

theorem printedLines_append (a b : List Ev) :
    printedLines (a ++ b) = printedLines a ++ printedLines b := by
  simp [printedLines]

theorem checkedPaths_append (a b : List Ev) :
    checkedPaths (a ++ b) = checkedPaths a ++ checkedPaths b := by
  simp [checkedPaths]

theorem hasErrLine_append_left {a : List Ev} (b : List Ev)
    (h : hasErrLine a) : hasErrLine (a ++ b) := by
  obtain ⟨s, hs, he⟩ := h
  exact ⟨s, by rw [printedLines_append]; exact List.mem_append_left _ hs, he⟩

theorem hasErrLine_append_right (a : List Ev) {b : List Ev}
    (h : hasErrLine b) : hasErrLine (a ++ b) := by
  obtain ⟨s, hs, he⟩ := h
  exact ⟨s, by rw [printedLines_append]; exact List.mem_append_right _ hs, he⟩

theorem noErrLine_append {a b : List Ev} (ha : noErrLine a)
    (hb : noErrLine b) : noErrLine (a ++ b) := by
  intro s hs
  rw [printedLines_append, List.mem_append] at hs
  cases hs with
  | inl h => exact ha s h
  | inr h => exact hb s h

theorem noErrLine_nil : noErrLine [] := by
  intro s hs
  simp [printedLines] at hs

theorem noErrLine_line {s : String} (h : isErrMsg s = false) :
    noErrLine [Ev.line s] := by
  intro t ht
  simp [printedLines] at ht
  rw [ht]
  exact h

theorem noErrLine_checkPath (p : String) : noErrLine [Ev.checkPath p] := by
  intro t ht
  simp [printedLines] at ht

theorem noErrLine_readFile (p : String) : noErrLine [Ev.readFile p] := by
  intro t ht
  simp [printedLines] at ht

theorem hasErrLine_line {s : String} (h : isErrMsg s = true) :
    hasErrLine [Ev.line s] := ⟨s, by simp [printedLines], h⟩

/-! Lemmas about the CDN sync loop. -/

namespace CdnSync

theorem syncLoop_bucket_mono (destPfx : String) :
    ∀ (es : List Entry) (b : List String) (k : String),
      k ∈ b → k ∈ (syncLoop b destPfx es).bucket := by
  intro es
  induction es with
  | nil => intro b k hk; simpa [syncLoop] using hk
  | cons e rest ih =>
    intro b k hk
    by_cases hf : e.isFile
    · by_cases hb : blob_name e.path destPfx ∈ b
      · simpa [syncLoop, hf, upload_file, hb] using ih _ k hk
      · simp only [syncLoop, hf, upload_file, hb, if_true, if_false]
        exact ih _ k (List.mem_append_left _ hk)
    · simpa [syncLoop, hf] using ih b k hk

theorem syncLoop_covers (destPfx : String) :
    ∀ (es : List Entry) (b : List String) (e : Entry),
      e ∈ es → e.isFile = true →
        blob_name e.path destPfx ∈ (syncLoop b destPfx es).bucket := by
  intro es
  induction es with
  | nil => intro b e he; simp at he
  | cons e0 rest ih =>
    intro b e he hf
    rcases List.mem_cons.mp he with he0 | hrest
    · subst he0
      by_cases hb : blob_name e.path destPfx ∈ b
      · simp only [syncLoop, hf, upload_file, hb, if_true]
        exact syncLoop_bucket_mono destPfx rest b _ hb
      · simp only [syncLoop, hf, upload_file, hb, if_true, if_false]
        exact syncLoop_bucket_mono destPfx rest _ _
          (List.mem_append_right _ (List.mem_singleton.mpr rfl))
    · by_cases hf0 : e0.isFile
      · by_cases hb : blob_name e0.path destPfx ∈ b
        · simpa [syncLoop, hf0, upload_file, hb] using ih _ e hrest hf
        · simpa [syncLoop, hf0, upload_file, hb] using ih _ e hrest hf
      · simpa [syncLoop, hf0] using ih b e hrest hf

theorem syncLoop_no_uploads (destPfx : String) :
    ∀ (es : List Entry) (b : List String),
      (∀ e ∈ es, e.isFile = true → blob_name e.path destPfx ∈ b) →
        (syncLoop b destPfx es).uploads = [] ∧
          (syncLoop b destPfx es).bucket = b := by
  intro es
  induction es with
  | nil => intro b _; simp [syncLoop]
  | cons e rest ih =>
    intro b hall
    by_cases hf : e.isFile
    · have hb : blob_name e.path destPfx ∈ b :=
        hall e (List.mem_cons_self e rest) hf
      have := ih b (fun x hx hxf => hall x (List.mem_cons_of_mem e hx) hxf)
      simp only [syncLoop, hf, upload_file, hb, if_true]
      simpa using this
    · exact (by
        simp only [syncLoop, hf, if_false]
        exact ih b (fun x hx hxf => hall x (List.mem_cons_of_mem e hx) hxf))

end CdnSync

/-- C1: the destination key `upload_file` computes is the destination
prefix followed by the file path relative to the file's grandparent
directory (its last two components), not relative to the source directory
`data`: a file directly under `data` keeps the `data` component in its
key, a file nested two directories deep loses its first subdirectory, and
two distinct local files can collide on the same key. -/
theorem C1_code_eval :
    CdnSync.blob_name ["data", "f.txt"] CdnSync.DEST_PREFIX
        = "toolkit/data/f.txt" ∧
    CdnSync.blob_name ["data", "sub", "f.txt"] CdnSync.DEST_PREFIX
        = "toolkit/sub/f.txt" ∧
    CdnSync.blob_name ["data", "a", "b", "f.txt"] CdnSync.DEST_PREFIX
        = "toolkit/b/f.txt" ∧
    CdnSync.blob_name ["data", "f.txt"] CdnSync.DEST_PREFIX
        ≠ "toolkit/f.txt" ∧
    CdnSync.blob_name ["data", "a", "b", "f.txt"] CdnSync.DEST_PREFIX
        ≠ "toolkit/a/b/f.txt" ∧
    CdnSync.blob_name ["data", "a", "x", "f"] CdnSync.DEST_PREFIX
        = CdnSync.blob_name ["data", "b", "x", "f"] CdnSync.DEST_PREFIX := by
  decide

/-- C8: the CDN sync never overwrites an existing object — a file whose
destination key is already in the bucket is skipped, uploading nothing and
leaving the bucket unchanged — and a second sync run against the bucket
state left by a first run performs zero uploads. -/
theorem C8_idempotent :
    (∀ (b fp : List String),
        CdnSync.blob_name fp CdnSync.DEST_PREFIX ∈ b →
          (CdnSync.upload_file b fp CdnSync.DEST_PREFIX).uploads = [] ∧
          (CdnSync.upload_file b fp CdnSync.DEST_PREFIX).bucket = b ∧
          CdnSync.NetEv.upload (CdnSync.blob_name fp CdnSync.DEST_PREFIX) ∉
            (CdnSync.upload_file b fp CdnSync.DEST_PREFIX).net) ∧
    (∀ (w : CdnSync.World), w.isDir = true →
        CdnSync.falsyEnv w.env = false →
        (CdnSync.sync_local_to_gcs
          ⟨w.isDir, w.entries, w.env,
           (CdnSync.sync_local_to_gcs w CdnSync.LOCAL_DIR
              CdnSync.DEST_PREFIX).bucket⟩
          CdnSync.LOCAL_DIR CdnSync.DEST_PREFIX).uploads = []) := by
  constructor
  · intro b fp hb
    refine ⟨?_, ?_, ?_⟩ <;> simp [CdnSync.upload_file, hb]
  · intro w h1 h2
    simp only [CdnSync.sync_local_to_gcs, h1, h2, Bool.true_eq_false,
      if_false, Bool.false_eq_true]
    exact (CdnSync.syncLoop_no_uploads CdnSync.DEST_PREFIX w.entries _
      (fun e he hf =>
        CdnSync.syncLoop_covers CdnSync.DEST_PREFIX w.entries w.bucket e
          he hf)).1

/-- C8 witness: a concrete one-file world in which the skip behaviour and
the zero-upload second run are both realised. -/
theorem C8_witness :
    (CdnSync.upload_file ["toolkit/a/f"] ["data", "a", "f"]
        CdnSync.DEST_PREFIX).uploads = [] ∧
    (CdnSync.sync_local_to_gcs
        ⟨true, [⟨["data", "a", "f"], true⟩], some "cred",
         (CdnSync.sync_local_to_gcs
            ⟨true, [⟨["data", "a", "f"], true⟩], some "cred", []⟩
            CdnSync.LOCAL_DIR CdnSync.DEST_PREFIX).bucket⟩
        CdnSync.LOCAL_DIR CdnSync.DEST_PREFIX).uploads = [] :=
  ⟨(C8_idempotent.1 ["toolkit/a/f"] ["data", "a", "f"] (by decide)).1,
   C8_idempotent.2 ⟨true, [⟨["data", "a", "f"], true⟩], some "cred", []⟩
     rfl (by decide)⟩

/-- C9 (amended): a CDN sync run whose local source path is a valid
directory and whose credential variable is unset or empty terminates with
exit status 1, performs no network call at all (no authentication, no
existence check, no upload), and its only output line names the missing
variable. -/
theorem C9_amended :
    ∀ (w : CdnSync.World) (local_dir destPfx : String),
      w.isDir = true → CdnSync.falsyEnv w.env = true →
      CdnSync.sync_local_to_gcs w local_dir destPfx =
        ⟨1, [CdnSync.SECRET_KEY ++ " not set in the environment."], [],
         w.bucket, []⟩ := by
  intro w local_dir destPfx h1 h2
  simp [CdnSync.sync_local_to_gcs, h1, h2]

/-- C9 amended witness: the concrete valid-directory, unset-variable run. -/
theorem C9_amended_witness :
    (⟨true, [], none, []⟩ : CdnSync.World).isDir = true ∧
    CdnSync.falsyEnv (⟨true, [], none, []⟩ : CdnSync.World).env = true ∧
    CdnSync.sync_local_to_gcs ⟨true, [], none, []⟩ "data" "toolkit" =
      ⟨1, [CdnSync.SECRET_KEY ++ " not set in the environment."], [],
       [], []⟩ :=
  ⟨rfl, rfl, C9_amended ⟨true, [], none, []⟩ "data" "toolkit" rfl rfl⟩

/-- C9 counterexample: a run started with the credential variable unset
but whose local source path is not a valid directory does not fail — it
exits with status 0 — and no printed line mentions the variable. -/
theorem C9_counterexample :
    CdnSync.falsyEnv (⟨false, [], none, []⟩ : CdnSync.World).env = true ∧
    (CdnSync.sync_local_to_gcs ⟨false, [], none, []⟩ CdnSync.LOCAL_DIR
        CdnSync.DEST_PREFIX).exitCode = 0 ∧
    (∀ m ∈ (CdnSync.sync_local_to_gcs ⟨false, [], none, []⟩
        CdnSync.LOCAL_DIR CdnSync.DEST_PREFIX).msgs,
      strHas m CdnSync.SECRET_KEY = false) := by
  decide

/-- C3 counterexample: a CDN sync run whose local source path is not a
valid directory is a failing input (it prints an error diagnostic), yet
the process terminates with exit status 0. -/
theorem C3_counterexample :
    CdnSync.sync_local_to_gcs ⟨false, [⟨["data", "f"], true⟩], some "cred",
        []⟩ CdnSync.LOCAL_DIR CdnSync.DEST_PREFIX =
      ⟨0, ["Error: data is not a valid directory."], [], [], []⟩ := by
  decide

/-- C10: the archiver's output name always ends in `.zip` — the default is
`packages.zip`, and a custom name that does not already end in `.zip` gets
the suffix appended. -/
theorem C10_zip_suffix :
    (∀ (o : Option String),
        pyEndswith (BuildPackages.create_modules_zip_output_name o) ".zip"
          = true) ∧
    (∀ (s : String), pyEndswith s ".zip" = false →
        BuildPackages.create_modules_zip_output_name (some s)
          = s ++ ".zip") := by
  constructor
  · intro o
    cases o with
    | none => decide
    | some s =>
      unfold BuildPackages.create_modules_zip_output_name
      by_cases h : pyEndswith s ".zip" = true
      · simp [h]
      · rw [Bool.not_eq_true] at h
        simp only [h, Bool.false_eq_true, if_false]
        exact pyEndswith_append s ".zip"
  · intro s h
    unfold BuildPackages.create_modules_zip_output_name
    simp [h]

/-- C10 witness: a concrete name without the suffix. -/
theorem C10_witness :
    pyEndswith "release" ".zip" = false ∧
    BuildPackages.create_modules_zip_output_name (some "release")
      = "release" ++ ".zip" :=
  ⟨by decide, C10_zip_suffix.2 "release" (by decide)⟩

/-! Lemmas about the archiver walk. -/

namespace BuildPackages

theorem filesHere_nil (rel : List String) : filesHere rel [] = [] := rfl

theorem filesHere_file (rel : List String) (name : String)
    (rest : List FTree) :
    filesHere rel (.file name :: rest)
      = (rel ++ [name]) :: filesHere rel rest := rfl

theorem filesHere_dir (rel : List String) (n : String) (cs rest : List FTree) :
    filesHere rel (.dir n cs :: rest) = filesHere rel rest := rfl

theorem walkSubdirs_nil (rel : List String) : walkSubdirs rel [] = [] := by
  simp [walkSubdirs]

theorem walkSubdirs_file (rel : List String) (name : String)
    (rest : List FTree) :
    walkSubdirs rel (.file name :: rest) = walkSubdirs rel rest := by
  simp [walkSubdirs]

theorem walkSubdirs_dir (rel : List String) (n : String)
    (cs rest : List FTree) :
    walkSubdirs rel (.dir n cs :: rest)
      = (if n ∈ EXCLUDED_DIRS then []
         else filesHere (rel ++ [n]) cs ++ walkSubdirs (rel ++ [n]) cs)
        ++ walkSubdirs rel rest := by
  rw [walkSubdirs]

theorem allFiles_ne_nil :
    ∀ (cs : List FTree) (q : List String), q ∈ allFiles cs → q ≠ [] := by
  intro cs
  induction cs using allFiles.induct with
  | case1 =>
    intro q hq
    simp [allFiles] at hq
  | case2 m rest ih =>
    intro q hq
    rw [allFiles] at hq
    rcases List.mem_cons.mp hq with h | h
    · rw [h]; exact List.cons_ne_nil _ _
    · exact ih q h
  | case3 n cs2 rest ih1 ih2 =>
    intro q hq
    rw [allFiles] at hq
    rcases List.mem_append.mp hq with h | h
    · obtain ⟨q2, _, hq2⟩ := List.mem_map.mp h
      rw [← hq2]; exact List.cons_ne_nil _ _
    · exact ih2 q h

theorem keepEntry_cons (n : String) (q : List String) (hq : q ≠ []) :
    keepEntry (n :: q)
      = ((!decide (n ∈ EXCLUDED_DIRS)) && keepEntry q) := by
  unfold keepEntry dirComponents
  rw [List.dropLast_cons_of_ne_nil hq]
  simp [List.all_cons]

theorem filter_keep_map (n : String) :
    ∀ (l : List (List String)), (∀ q ∈ l, q ≠ []) →
      (l.map (fun q => n :: q)).filter keepEntry
        = if n ∈ EXCLUDED_DIRS then []
          else (l.filter keepEntry).map (fun q => n :: q) := by
  intro l
  induction l with
  | nil => intro _; simp
  | cons q l ih =>
    intro h
    have hq : q ≠ [] := h q (List.mem_cons_self q l)
    have hrest := ih fun x hx => h x (List.mem_cons_of_mem _ hx)
    by_cases hn : n ∈ EXCLUDED_DIRS
    · simp [List.filter_cons, keepEntry_cons n q hq, hn, hrest]
    · by_cases hkq : keepEntry q = true
      · simp [List.filter_cons, keepEntry_cons n q hq, hn, hkq, hrest]
      · rw [Bool.not_eq_true] at hkq
        simp [List.filter_cons, keepEntry_cons n q hq, hn, hkq, hrest]

theorem specEntries_nil : specEntries [] = [] := by
  simp [specEntries, allFiles]

theorem specEntries_file (m : String) (rest : List FTree) :
    specEntries (.file m :: rest) = [m] :: specEntries rest := by
  simp [specEntries, allFiles, List.filter_cons, keepEntry, dirComponents]

theorem specEntries_dir (n : String) (cs rest : List FTree) :
    specEntries (.dir n cs :: rest)
      = (if n ∈ EXCLUDED_DIRS then []
         else (specEntries cs).map (fun q => n :: q))
        ++ specEntries rest := by
  unfold specEntries
  rw [allFiles]
  rw [List.filter_append]
  rw [filter_keep_map n (allFiles cs) (allFiles_ne_nil cs)]

theorem walk_mem (rel : List String) (cs : List FTree) :
    ∀ p, (p ∈ filesHere rel cs ∨ p ∈ walkSubdirs rel cs)
      ↔ ∃ q ∈ specEntries cs, p = rel ++ q := by
  induction rel, cs using walkSubdirs.induct with
  | case1 rel =>
    intro p
    simp [filesHere_nil, walkSubdirs_nil, specEntries_nil]
  | case2 rel name rest ih =>
    intro p
    rw [filesHere_file, walkSubdirs_file, specEntries_file]
    simp only [List.mem_cons]
    constructor
    · rintro (h | h)
      · rcases h with h | h
        · exact ⟨[name], Or.inl rfl, h⟩
        · obtain ⟨q, hq1, hq2⟩ := (ih p).mp (Or.inl h)
          exact ⟨q, Or.inr hq1, hq2⟩
      · obtain ⟨q, hq1, hq2⟩ := (ih p).mp (Or.inr h)
        exact ⟨q, Or.inr hq1, hq2⟩
    · rintro ⟨q, hq1 | hq1, hq2⟩
      · exact Or.inl (Or.inl (by rw [hq2, hq1]))
      · rcases (ih p).mpr ⟨q, hq1, hq2⟩ with h | h
        · exact Or.inl (Or.inr h)
        · exact Or.inr h
  | case3 rel n cs rest ih1 ih2 =>
    intro p
    rw [filesHere_dir, walkSubdirs_dir, specEntries_dir]
    by_cases hn : n ∈ EXCLUDED_DIRS
    · simp only [hn, if_true, List.nil_append]
      exact ih2 p
    · simp only [hn, if_false, List.mem_append]
      constructor
      · rintro (h | (h | h))
        · -- file of the surrounding directory, from `rest`
          obtain ⟨q, hq1, hq2⟩ := (ih2 p).mp (Or.inl h)
          exact ⟨q, Or.inr hq1, hq2⟩
        · -- inside the subdirectory `n`
          obtain ⟨q, hq1, hq2⟩ := (ih1 p).mp h
          refine ⟨n :: q, Or.inl (List.mem_map.mpr ⟨q, hq1, rfl⟩), ?_⟩
          rw [hq2, List.append_assoc, List.singleton_append]
        · obtain ⟨q, hq1, hq2⟩ := (ih2 p).mp (Or.inr h)
          exact ⟨q, Or.inr hq1, hq2⟩
      · rintro ⟨q, hq1 | hq1, hq2⟩
        · obtain ⟨q2, hq21, hq22⟩ := List.mem_map.mp hq1
          have : p = (rel ++ [n]) ++ q2 := by
            rw [hq2, ← hq22, List.append_assoc, List.singleton_append]
          have hm := (ih1 p).mpr ⟨q2, hq21, this⟩
          exact Or.inr (Or.inl hm)
        · rcases (ih2 p).mpr ⟨q, hq1, hq2⟩ with h | h
          · exact Or.inl h
          · exact Or.inr (Or.inr h)

end BuildPackages

/-- C5: for every directory tree, the set of archive entries written by
`create_modules_zip` equals the set of regular files under the source
directory whose relative path contains no directory component named
`__pycache__`, `.pytest_cache` or `.git`, each entry named by the file's
path relative to the source directory. -/
theorem C5_entries :
    ∀ (cs : List BuildPackages.FTree) (p : List String),
      p ∈ BuildPackages.create_modules_zip_entries cs
        ↔ p ∈ BuildPackages.specEntries cs := by
  intro cs p
  unfold BuildPackages.create_modules_zip_entries
  rw [List.mem_append]
  rw [BuildPackages.walk_mem [] cs p]
  simp

/-! Lemmas about the schema-based library-header validation. -/

theorem pyBlank_length {s : String} (h : pyBlank s = false) :
    ¬s.length = 0 := by
  intro h0
  cases s with
  | mk data =>
    have hd : data = [] := List.eq_nil_of_length_eq_zero h0
    rw [hd] at h
    exact absurd h (by decide)

namespace Scripts

theorem reqStr_ok_iff (ctx : String) (kvs : List (String × Toml))
    (f s : String) :
    reqStr ctx kvs f = .ok s ↔
      (tomlLookup kvs f = some (.str s) ∧ ¬s.length = 0) := by
  unfold reqStr
  rcases h : tomlLookup kvs f with _ | v
  · simp
  · cases v with
    | str s2 =>
      by_cases h0 : s2.length = 0
      · simp only [h0, if_true]
        constructor
        · intro hc; exact absurd hc (by simp)
        · rintro ⟨he, hl⟩
          rw [Option.some.injEq, Toml.str.injEq] at he
          exact absurd (he ▸ h0) hl
      · simp only [h0, if_false]
        constructor
        · intro he
          rw [Except.ok.injEq] at he
          exact ⟨by rw [he], he ▸ h0⟩
        · rintro ⟨he, _⟩
          rw [Option.some.injEq, Toml.str.injEq] at he
          rw [he]
    | int n => simp
    | bool b => simp
    | arr xs => simp
    | table t => simp

theorem stripValidator_ok_iff (ctx f s v : String) :
    stripValidator ctx f s = .ok v ↔ (v = s ∧ pyBlank s = false) := by
  unfold stripValidator
  by_cases h : pyBlank s = true
  · rw [if_pos h]
    constructor
    · intro hc; exact absurd hc (by simp)
    · rintro ⟨_, hb⟩
      rw [h] at hb
      exact absurd hb (by simp)
  · rw [Bool.not_eq_true] at h
    rw [if_neg (by simp [h])]
    constructor
    · intro he
      rw [Except.ok.injEq] at he
      exact ⟨he.symm, h⟩
    · rintro ⟨rfl, _⟩; rfl

theorem parseLibrary_ok_iff (ctx : String) (kvs : List (String × Toml)) :
    (∃ l, parseLibrary ctx (.table kvs) = .ok l) ↔
      ((∃ t, tomlLookup kvs "title" = some (.str t) ∧ pyBlank t = false) ∧
       (∃ d, tomlLookup kvs "description" = some (.str d)
          ∧ pyBlank d = false)) := by
  constructor
  · rintro ⟨l, hl⟩
    simp only [parseLibrary] at hl
    split at hl
    case _ => exact absurd hl (by simp)
    case _ t0 heq1 =>
      split at hl
      case _ => exact absurd hl (by simp)
      case _ t heq2 =>
        split at hl
        case _ => exact absurd hl (by simp)
        case _ d0 heq3 =>
          split at hl
          case _ => exact absurd hl (by simp)
          case _ d heq4 =>
            obtain ⟨ht, _⟩ := (reqStr_ok_iff ctx kvs "title" t0).mp heq1
            obtain ⟨_, htb⟩ :=
              (stripValidator_ok_iff ctx "title" t0 t).mp heq2
            obtain ⟨hd, _⟩ :=
              (reqStr_ok_iff ctx kvs "description" d0).mp heq3
            obtain ⟨_, hdb⟩ :=
              (stripValidator_ok_iff ctx "description" d0 d).mp heq4
            exact ⟨⟨t0, ht, htb⟩, ⟨d0, hd, hdb⟩⟩
  · rintro ⟨⟨t, ht, htb⟩, ⟨d, hd, hdb⟩⟩
    refine ⟨⟨t, d⟩, ?_⟩
    simp only [parseLibrary,
      show reqStr ctx kvs "title" = .ok t from
        (reqStr_ok_iff ctx kvs "title" t).mpr ⟨ht, pyBlank_length htb⟩,
      show stripValidator ctx "title" t = .ok t from
        (stripValidator_ok_iff ctx "title" t t).mpr ⟨rfl, htb⟩,
      show reqStr ctx kvs "description" = .ok d from
        (reqStr_ok_iff ctx kvs "description" d).mpr
          ⟨hd, pyBlank_length hdb⟩,
      show stripValidator ctx "description" d = .ok d from
        (stripValidator_ok_iff ctx "description" d d).mpr ⟨rfl, hdb⟩]

end Scripts

/-- C2 counterexample: a manifest whose library header has no `title` at
all (only a non-empty description) passes the full hand-checked validation
with exit status 0, so validation does not fail whenever the title is
missing. -/
theorem C2_counterexample :
    (∃ lib, tomlLookup dataNoTitle "library" = some (Toml.table lib) ∧
        tomlLookup lib "title" = none) ∧
    (Validate.main fsNoTitle).2 = 0 :=
  ⟨⟨[("description", Toml.str "A library")], rfl, rfl⟩, rfl⟩

/-- C2 (amended): the hand-checked validator accepts a library header as
soon as its `description` is a non-empty string — the `title` field is
never consulted — while the schema-based validator accepts a library
header exactly when both `title` and `description` are present,
string-valued and non-blank. -/
theorem C2_amended :
    (∀ (data lib : List (String × Toml)) (s : String),
        tomlLookup data "library" = some (.table lib) →
        tomlLookup lib "description" = some (.str s) →
        s.isEmpty = false →
        Validate.validate_library_header data
          = ([.line "✓ [library] header validation passed"], .ok true)) ∧
    (∀ (kvs : List (String × Toml)),
        (∃ l, Scripts.parseLibrary "library." (.table kvs) = .ok l) ↔
          ((∃ t, tomlLookup kvs "title" = some (.str t)
              ∧ pyBlank t = false) ∧
           (∃ d, tomlLookup kvs "description" = some (.str d)
              ∧ pyBlank d = false))) := by
  constructor
  · intro data lib s h1 h2 h3
    simp only [Validate.validate_library_header, h1, h2]
    simp [Toml.truthy, Validate.isStr, h3]
  · intro kvs
    exact Scripts.parseLibrary_ok_iff "library." kvs

/-- C2 amended witness: the concrete title-less library header. -/
theorem C2_amended_witness :
    tomlLookup dataNoTitle "library"
        = some (Toml.table [("description", Toml.str "A library")]) ∧
    Validate.validate_library_header dataNoTitle
      = ([.line "✓ [library] header validation passed"], .ok true) :=
  ⟨rfl, C2_amended.1 dataNoTitle [("description", Toml.str "A library")]
    "A library" rfl rfl rfl⟩

set_option maxRecDepth 4096 in
/-- C4 counterexample: with package `alpha` and module `beta`, a TOML
syntax error in `modules/beta/module.toml` makes the hand-checked
validator exit 1, but its only error diagnostic is the generic
`ERROR: Invalid TOML format: ...` line, which names neither the package
nor the module. -/
theorem C4_counterexample :
    (Validate.main fsBadModuleToml).2 = 1 ∧
    (printedLines (Validate.main fsBadModuleToml).1).filter isErrMsg
      = ["ERROR: Invalid TOML format: invalid statement (at line 1, column 1)"]
      ∧
    (∀ m ∈ (printedLines (Validate.main fsBadModuleToml).1).filter isErrMsg,
      strHas m "alpha" = false ∧ strHas m "beta" = false) := by
  decide

/-- C4 (amended): malformed module descriptors abort validation with a
non-zero exit in both validators; the schema-based validator's diagnostic
names the offending package and module, while the hand-checked validator
lets the TOML decode error escape to `main`, which reports the generic
`ERROR: Invalid TOML format: ...` message. -/
theorem C4_amended :
    (∀ (fs : FSys) (base_path package_name module_path e : String),
      fs.pathExists (joinPath base_path module_path) = true →
      fs.pathExists
        (joinPath (joinPath base_path module_path) "module.toml") = true →
      fs.readToml (joinPath (joinPath base_path module_path) "module.toml")
        = .error e →
      ∃ msg,
        (Scripts.validate_module_path fs base_path package_name
          module_path).2 = .error msg ∧
        isErrMsg msg = true ∧ strHas msg package_name = true ∧
        strHas msg module_path = true) ∧
    (∀ (fs : FSys) (package_name base_path module_path e : String),
      fs.pathExists (joinPath base_path module_path) = true →
      fs.pathExists
        (joinPath (joinPath base_path module_path) "module.toml") = true →
      fs.readToml (joinPath (joinPath base_path module_path) "module.toml")
        = .error e →
      (Validate.checkModule fs package_name base_path
          (.str module_path)).2 = .error (.tomlDecode e) ∧
      Validate.renderPyErr (.tomlDecode e)
        = "ERROR: Invalid TOML format: " ++ e) := by
  constructor
  · intro fs base_path package_name module_path e h1 h2 h3
    refine ⟨"ERROR: Package " ++ qc ++ package_name ++ qc ++ " module "
      ++ qc ++ module_path ++ qc ++ " has invalid TOML in module.toml: "
      ++ e, ?_, ?_, ?_, ?_⟩
    · simp [Scripts.validate_module_path, h1, h2, h3]
    · simp only [String.append_assoc]
      exact isErrMsg_true_mono _ _ (by decide)
    · refine strHas_of_eq _ ("ERROR: Package " ++ qc) package_name
        (qc ++ (" module " ++ (qc ++ (module_path ++ (qc
          ++ (" has invalid TOML in module.toml: " ++ e)))))) ?_
      simp [String.append_assoc]
    · refine strHas_of_eq _ ("ERROR: Package " ++ qc ++ package_name ++ qc
        ++ " module " ++ qc) module_path
        (qc ++ (" has invalid TOML in module.toml: " ++ e)) ?_
      simp [String.append_assoc]
  · intro fs package_name base_path module_path e h1 h2 h3
    constructor
    · simp [Validate.checkModule, h1, h2, h3]
    · rfl

/-- C4 amended witness: the concrete bad-module-TOML filesystem. -/
theorem C4_amended_witness :
    fsBadModuleToml.pathExists (joinPath "modules" "beta") = true ∧
    fsBadModuleToml.pathExists
      (joinPath (joinPath "modules" "beta") "module.toml") = true ∧
    fsBadModuleToml.readToml
        (joinPath (joinPath "modules" "beta") "module.toml")
      = .error "invalid statement (at line 1, column 1)" ∧
    (∃ msg,
      (Scripts.validate_module_path fsBadModuleToml "modules" "alpha"
        "beta").2 = .error msg ∧
      isErrMsg msg = true ∧ strHas msg "alpha" = true ∧
      strHas msg "beta" = true) ∧
    (Validate.checkModule fsBadModuleToml "alpha" "modules"
        (.str "beta")).2
      = .error (.tomlDecode "invalid statement (at line 1, column 1)") :=
  ⟨by decide, by decide, rfl,
   C4_amended.1 fsBadModuleToml "modules" "alpha" "beta"
     "invalid statement (at line 1, column 1)" (by decide) (by decide) rfl,
   (C4_amended.2 fsBadModuleToml "alpha" "modules" "beta"
     "invalid statement (at line 1, column 1)" (by decide) (by decide)
     rfl).1⟩

/-- C6: in both validators, an extra-resource entry is checked at the path
obtained by joining the validator's base directory (the manifest's base,
not the module's own directory) with the entry's location; when that path
does not exist, validation fails and the diagnostic names that resolved
path. -/
theorem C6_extra_resources :
    (∀ (fs : FSys) (package_name base_path module_path i pid t loc : String),
      fs.pathExists (joinPath base_path module_path) = true →
      fs.pathExists
        (joinPath (joinPath base_path module_path) "module.toml") = true →
      fs.readToml (joinPath (joinPath base_path module_path) "module.toml")
        = .ok (extraResourceModule i pid t loc) →
      fs.pathExists (joinPath base_path loc) = false →
      Validate.checkModule fs package_name base_path (.str module_path)
        = ([.checkPath (joinPath base_path module_path),
            .checkPath
              (joinPath (joinPath base_path module_path) "module.toml"),
            .readFile
              (joinPath (joinPath base_path module_path) "module.toml"),
            .checkPath (joinPath base_path loc),
            .line ("ERROR: Package " ++ qc ++ package_name ++ qc
              ++ " module " ++ qc ++ module_path ++ qc
              ++ " refers to a non-existent file: "
              ++ joinPath base_path loc)], .ok false)) ∧
    (∀ (fs : FSys) (package_name base_path module_path i pid t loc : String),
      i.length ≠ 0 → pid.length ≠ 0 → t.length ≠ 0 → loc.length ≠ 0 →
      fs.pathExists (joinPath base_path module_path) = true →
      fs.pathExists
        (joinPath (joinPath base_path module_path) "module.toml") = true →
      fs.readToml (joinPath (joinPath base_path module_path) "module.toml")
        = .ok (extraResourceModule i pid t loc) →
      fs.pathExists (joinPath base_path loc) = false →
      Scripts.validate_module_path fs base_path package_name module_path
        = ([.checkPath (joinPath base_path module_path),
            .checkPath
              (joinPath (joinPath base_path module_path) "module.toml"),
            .readFile
              (joinPath (joinPath base_path module_path) "module.toml"),
            .checkPath (joinPath base_path loc)],
           .error ("ERROR: Package " ++ qc ++ package_name ++ qc
             ++ " module " ++ qc ++ module_path ++ qc
             ++ " refers to a non-existent file: "
             ++ joinPath base_path loc))) := by
  constructor
  · intro fs package_name base_path module_path i pid t loc h1 h2 h3 h4
    simp [Validate.checkModule, Validate.extraLoop, extraResourceModule,
      tomlLookup, h1, h2, h3, h4]
  · intro fs package_name base_path module_path i pid t loc hi hpid ht
      hloc h1 h2 h3 h4
    simp [Scripts.validate_module_path, Scripts.parseModuleToml,
      Scripts.parseModule, Scripts.parseExtraResources,
      Scripts.parseExtraResource, Scripts.reqStr, Scripts.optBool,
      Scripts.extraResLoop, extraResourceModule, tomlLookup,
      hi, hpid, ht, hloc, h1, h2, h3, h4]

/-- C6 witness: the concrete filesystem with a missing extra resource. -/
theorem C6_witness :
    fsExtraMissing.pathExists (joinPath "modules" "beta") = true ∧
    fsExtraMissing.pathExists
      (joinPath (joinPath "modules" "beta") "module.toml") = true ∧
    fsExtraMissing.readToml
        (joinPath (joinPath "modules" "beta") "module.toml")
      = .ok (extraResourceModule "beta" "alpha" "B" "data/extra.csv") ∧
    fsExtraMissing.pathExists (joinPath "modules" "data/extra.csv")
      = false ∧
    (Validate.checkModule fsExtraMissing "alpha" "modules"
        (.str "beta")).2 = .ok false ∧
    (Scripts.validate_module_path fsExtraMissing "modules" "alpha"
        "beta").2
      = .error ("ERROR: Package " ++ qc ++ "alpha" ++ qc ++ " module "
          ++ qc ++ "beta" ++ qc ++ " refers to a non-existent file: "
          ++ joinPath "modules" "data/extra.csv") :=
  ⟨by decide, by decide, rfl, by decide,
   by rw [C6_extra_resources.1 fsExtraMissing "alpha" "modules" "beta"
     "beta" "alpha" "B" "data/extra.csv" (by decide) (by decide) rfl
     (by decide)],
   by rw [C6_extra_resources.2 fsExtraMissing "alpha" "modules" "beta"
     "beta" "alpha" "B" "data/extra.csv" (by decide) (by decide)
     (by decide) (by decide) (by decide) (by decide) rfl (by decide)]⟩

/-- C7: a manifest whose `packages` table is present but empty fails
validation — the hand-checked validator prints `ERROR: No packages
defined` and exits 1 having queried no path other than the manifest
itself, and the schema-based validator exits 1 having queried only its
base directory and the manifest, so no module-path existence check is
ever performed. -/
theorem C7_empty_packages :
    (∀ (fs : FSys) (lib : List (String × Toml)) (d : String),
      fs.pathExists "modules/packages.toml" = true →
      fs.readToml "modules/packages.toml"
        = .ok [("library", Toml.table lib), ("packages", Toml.table [])] →
      tomlLookup lib "description" = some (.str d) →
      d.isEmpty = false →
      Validate.main fs
        = ([.checkPath "modules/packages.toml",
            .readFile "modules/packages.toml",
            .line ("✓ Successfully parsed " ++ Validate.packages_file),
            .line "✓ [library] header validation passed",
            .line "ERROR: No packages defined"], 1) ∧
      (∀ p, Ev.checkPath p ∈ (Validate.main fs).1 →
        p = "modules/packages.toml")) ∧
    (∀ (fs : FSys) (lt ld : String),
      lt.length ≠ 0 → pyBlank lt = false →
      ld.length ≠ 0 → pyBlank ld = false →
      fs.pathExists "modules" = true →
      fs.pathExists "modules/packages.toml" = true →
      fs.readToml "modules/packages.toml"
        = .ok [("library", Toml.table [("title", Toml.str lt),
            ("description", Toml.str ld)]), ("packages", Toml.table [])] →
      (Scripts.main fs).2 = 1 ∧
      (∀ p, Ev.checkPath p ∈ (Scripts.main fs).1 →
        p = "modules" ∨ p = "modules/packages.toml")) := by
  constructor
  · intro fs lib d h1 h2 h3 h4
    have hm : Validate.main fs
        = ([.checkPath "modules/packages.toml",
            .readFile "modules/packages.toml",
            .line ("✓ Successfully parsed " ++ Validate.packages_file),
            .line "✓ [library] header validation passed",
            .line "ERROR: No packages defined"], 1) := by
      simp [Validate.main, Validate.packages_file,
        Validate.validate_library_header, Validate.validate_packages,
        tomlLookup, Toml.truthy, Validate.isStr, h1, h2, h3, h4]
    refine ⟨hm, ?_⟩
    rw [hm]
    intro p hp
    simp at hp
    exact hp
  · intro fs lt ld hlt hltb hld hldb h1 h2 h3
    have hm : Scripts.main fs
        = ([.checkPath "modules", .checkPath "modules/packages.toml",
            .readFile "modules/packages.toml",
            .line "✓ Successfully parsed modules/packages.toml",
            .line ("ERROR: Invalid packages.toml structure: "
              ++ "packages: Dictionary should have at least 1 item")], 1)
        := by
      simp [Scripts.main, Scripts.validate, Scripts.parsePackagesToml,
        Scripts.parseLibrary, Scripts.reqStr, Scripts.stripValidator,
        tomlLookup, hlt, hltb, hld, hldb, h1, h2, h3]
    constructor
    · rw [hm]
    · rw [hm]
      intro p hp
      simp at hp
      exact hp

/-- C7 witness: the concrete empty-`packages` manifest. -/
theorem C7_witness :
    fsEmptyPackages.pathExists "modules/packages.toml" = true ∧
    fsEmptyPackages.readToml "modules/packages.toml"
      = .ok [("library", Toml.table [("title", Toml.str "L"),
          ("description", Toml.str "Desc")]),
          ("packages", Toml.table [])] ∧
    (Validate.main fsEmptyPackages).2 = 1 ∧
    (Scripts.main fsEmptyPackages).2 = 1 :=
  ⟨by decide, rfl,
   by rw [(C7_empty_packages.1 fsEmptyPackages
     [("title", Toml.str "L"), ("description", Toml.str "Desc")] "Desc"
     (by decide) rfl rfl (by decide)).1],
   (C7_empty_packages.2 fsEmptyPackages "L" "Desc" (by decide) (by decide)
     (by decide) (by decide) (by decide) (by decide) rfl).1⟩

/-! Classification of validator traces: failing runs print an `ERROR`
diagnostic, succeeding runs never do. -/

theorem printedLines_cons_checkPath (p : String) (evs : List Ev) :
    printedLines (Ev.checkPath p :: evs) = printedLines evs := by
  simp [printedLines]

theorem printedLines_cons_readFile (p : String) (evs : List Ev) :
    printedLines (Ev.readFile p :: evs) = printedLines evs := by
  simp [printedLines]

theorem printedLines_cons_line (s : String) (evs : List Ev) :
    printedLines (Ev.line s :: evs) = s :: printedLines evs := by
  simp [printedLines]

theorem noErrLine_cons_checkPath {evs : List Ev} (p : String)
    (h : noErrLine evs) : noErrLine (Ev.checkPath p :: evs) := by
  intro s hs
  rw [printedLines_cons_checkPath] at hs
  exact h s hs

theorem hasErrLine_cons_checkPath {evs : List Ev} (p : String)
    (h : hasErrLine evs) : hasErrLine (Ev.checkPath p :: evs) := by
  obtain ⟨s, hs, he⟩ := h
  exact ⟨s, by rw [printedLines_cons_checkPath]; exact hs, he⟩

namespace Validate

theorem renderPyErr_isErr (e : PyErr) :
    isErrMsg (renderPyErr e) = true := by
  cases e <;>
    (simp only [renderPyErr, String.append_assoc];
      exact isErrMsg_true_mono _ _ (by decide))

theorem vlh_cases (data : List (String × Toml)) :
    ((validate_library_header data).2 = .ok true →
      noErrLine (validate_library_header data).1) ∧
    ((validate_library_header data).2 = .ok false →
      hasErrLine (validate_library_header data).1) := by
  unfold validate_library_header
  split
  · exact ⟨fun h => absurd h (by simp), fun _ => hasErrLine_line (by decide)⟩
  · split
    · exact ⟨fun h => absurd h (by simp),
        fun _ => hasErrLine_line (by decide)⟩
    · split
      · exact ⟨fun h => absurd h (by simp),
          fun _ => hasErrLine_line (by decide)⟩
      · exact ⟨fun _ => noErrLine_line (by decide),
          fun h => absurd h (by simp)⟩
  · exact ⟨fun h => absurd h (by simp), fun h => absurd h (by simp)⟩

theorem vpk_cases (data : List (String × Toml)) :
    ((validate_packages data).2 = .ok true →
      noErrLine (validate_packages data).1) ∧
    ((validate_packages data).2 = .ok false →
      hasErrLine (validate_packages data).1) := by
  unfold validate_packages
  split
  · exact ⟨fun h => absurd h (by simp), fun _ => hasErrLine_line (by decide)⟩
  · split
    · exact ⟨fun h => absurd h (by simp),
        fun _ => hasErrLine_line (by decide)⟩
    · split
      · exact ⟨fun h => absurd h (by simp), fun h => absurd h (by simp)⟩
      · refine ⟨fun _ => noErrLine_line ?_, fun h => absurd h (by simp)⟩
        simp only [String.append_assoc]
        exact isErrMsg_false_mono _ _ (by decide) (by decide)

theorem vpk_some (data : List (String × Toml)) (evs : List Ev)
    (h : validate_packages data = (evs, .ok true)) :
    ∃ v, tomlLookup data "packages" = some v := by
  unfold validate_packages at h
  split at h
  · exact absurd h (by simp)
  case _ v heq => exact ⟨v, heq⟩

theorem vps_cases (package_name : String) (pd : Toml) :
    ((validate_package_structure package_name pd).2 = .ok true →
      noErrLine (validate_package_structure package_name pd).1) ∧
    ((validate_package_structure package_name pd).2 = .ok false →
      hasErrLine (validate_package_structure package_name pd).1) := by
  unfold validate_package_structure
  split
  · split
    · exact ⟨fun h => absurd h (by simp), fun _ => hasErrLine_line (by
        simp only [msgMissingField, String.append_assoc]
        exact isErrMsg_true_mono _ _ (by decide))⟩
    · split
      · exact ⟨fun h => absurd h (by simp), fun _ => hasErrLine_line (by
          simp only [msgMissingField, String.append_assoc]
          exact isErrMsg_true_mono _ _ (by decide))⟩
      · split
        · exact ⟨fun h => absurd h (by simp), fun _ => hasErrLine_line (by
            simp only [msgMissingField, String.append_assoc]
            exact isErrMsg_true_mono _ _ (by decide))⟩
        · split
          · exact ⟨fun h => absurd h (by simp), fun _ => hasErrLine_line (by
              simp only [msgMissingField, String.append_assoc]
              exact isErrMsg_true_mono _ _ (by decide))⟩
          · split
            · exact ⟨fun h => absurd h (by simp),
                fun _ => hasErrLine_line (by
                  simp only [String.append_assoc]
                  exact isErrMsg_true_mono _ _ (by decide))⟩
            · split
              · exact ⟨fun h => absurd h (by simp),
                  fun _ => hasErrLine_line (by
                    simp only [String.append_assoc]
                    exact isErrMsg_true_mono _ _ (by decide))⟩
              · split
                · split
                  · exact ⟨fun h => absurd h (by simp),
                      fun _ => hasErrLine_line (by
                        simp only [String.append_assoc]
                        exact isErrMsg_true_mono _ _ (by decide))⟩
                  · exact ⟨fun _ => noErrLine_line (by
                        simp only [String.append_assoc]
                        exact isErrMsg_false_mono _ _ (by decide)
                          (by decide)),
                      fun h => absurd h (by simp)⟩
                · exact ⟨fun h => absurd h (by simp),
                    fun _ => hasErrLine_line (by
                      simp only [String.append_assoc]
                      exact isErrMsg_true_mono _ _ (by decide))⟩
  · exact ⟨fun h => absurd h (by simp), fun h => absurd h (by simp)⟩

end Validate

theorem hasErrLine_pair (p s : String) (h : isErrMsg s = true) :
    hasErrLine [Ev.checkPath p, Ev.line s] :=
  ⟨s, by simp [printedLines], h⟩

theorem hasErrLine_line_mem {evs : List Ev} (s : String)
    (hmem : Ev.line s ∈ evs) (h : isErrMsg s = true) : hasErrLine evs :=
  ⟨s, List.mem_filterMap.mpr ⟨Ev.line s, hmem, rfl⟩, h⟩

theorem noErrLine_pre (p1 p2 p3 : String) :
    noErrLine [Ev.checkPath p1, Ev.checkPath p2, Ev.readFile p3] := by
  intro s hs
  simp [printedLines] at hs

namespace Validate

theorem extraLoop_cases (fs : FSys)
    (package_name module_path base_path : String) :
    ∀ (ers : List Toml),
      ((extraLoop fs package_name module_path base_path ers).2 = .ok true →
        noErrLine (extraLoop fs package_name module_path base_path ers).1) ∧
      ((extraLoop fs package_name module_path base_path ers).2 = .ok false →
        hasErrLine (extraLoop fs package_name module_path base_path ers).1)
    := by
  intro ers
  induction ers with
  | nil =>
    constructor
    · intro _
      exact noErrLine_nil
    · intro h
      exact absurd h (by simp [extraLoop])
  | cons er rest ih =>
    simp only [extraLoop]
    split
    · split
      · exact ⟨fun h => absurd h (by simp), fun h => absurd h (by simp)⟩
      · split
        · refine ⟨fun h => absurd h (by simp),
            fun _ => hasErrLine_pair _ _ ?_⟩
          simp only [String.append_assoc]
          exact isErrMsg_true_mono _ _ (by decide)
        · constructor
          · intro h
            exact noErrLine_cons_checkPath _ (ih.1 h)
          · intro h
            exact hasErrLine_cons_checkPath _ (ih.2 h)
      · exact ⟨fun h => absurd h (by simp), fun h => absurd h (by simp)⟩
    · exact ⟨fun h => absurd h (by simp), fun h => absurd h (by simp)⟩

end Validate

namespace Validate

theorem checkModule_cases (fs : FSys) (package_name base_path : String)
    (mp : Toml) :
    ((checkModule fs package_name base_path mp).2 = .ok true →
      noErrLine (checkModule fs package_name base_path mp).1) ∧
    ((checkModule fs package_name base_path mp).2 = .ok false →
      hasErrLine (checkModule fs package_name base_path mp).1) := by
  unfold checkModule
  split
  · dsimp only []
    split
    · exact ⟨fun h => absurd h (by simp),
        fun _ => hasErrLine_pair _ _ (by
          simp only [String.append_assoc]
          exact isErrMsg_true_mono _ _ (by decide))⟩
    · split
      · refine ⟨fun h => absurd h (by simp), fun _ =>
          hasErrLine_line_mem _
            (List.mem_cons_of_mem _ (List.mem_cons_of_mem _
              (List.mem_cons_self _ _))) ?_⟩
        simp only [String.append_assoc]
        exact isErrMsg_true_mono _ _ (by decide)
      · split
        · exact ⟨fun h => absurd h (by simp), fun h => absurd h (by simp)⟩
        · split
          · exact ⟨fun h => absurd h (by simp), fun h => absurd h (by simp)⟩
          · split
            · refine ⟨fun h => absurd h (by simp), fun _ =>
                hasErrLine_append_right _ (hasErrLine_line ?_)⟩
              simp only [String.append_assoc]
              exact isErrMsg_true_mono _ _ (by decide)
            · split
              · exact ⟨fun h => absurd h (by simp),
                  fun h => absurd h (by simp)⟩
              · split
                · rename_i heq
                  refine ⟨fun _ => ?_, fun h => absurd h (by simp)⟩
                  refine noErrLine_append (noErrLine_append
                    (noErrLine_pre _ _ _) ?_) (noErrLine_line (by
                      simp only [String.append_assoc]
                      exact isErrMsg_false_mono _ _ (by decide)
                        (by decide)))
                  exact (extraLoop_cases fs package_name _ base_path _).1 heq
                · rename_i hne
                  exact ⟨fun h => absurd h hne,
                    fun h => hasErrLine_append_right _
                      ((extraLoop_cases fs package_name _
                        base_path _).2 h)⟩
          · exact ⟨fun h => absurd h (by simp), fun h => absurd h (by simp)⟩
  · exact ⟨fun h => absurd h (by simp),
      fun _ => hasErrLine_line (by
        simp only [String.append_assoc]
        exact isErrMsg_true_mono _ _ (by decide))⟩

end Validate

theorem noErrLine_start (p1 p2 s : String) (h : isErrMsg s = false) :
    noErrLine [Ev.checkPath p1, Ev.readFile p2, Ev.line s] := by
  intro t ht
  simp [printedLines] at ht
  rw [ht]
  exact h

namespace Validate

theorem modulesLoop_cases (fs : FSys) (package_name base_path : String) :
    ∀ (ms : List Toml),
      ((modulesLoop fs package_name base_path ms).2 = .ok true →
        noErrLine (modulesLoop fs package_name base_path ms).1) ∧
      ((modulesLoop fs package_name base_path ms).2 = .ok false →
        hasErrLine (modulesLoop fs package_name base_path ms).1) := by
  intro ms
  induction ms with
  | nil =>
    constructor
    · intro _
      simp only [modulesLoop]
      exact noErrLine_nil
    · intro h
      exact absurd h (by simp [modulesLoop])
  | cons mp rest ih =>
    simp only [modulesLoop]
    split
    · rename_i heq
      constructor
      · intro h
        exact noErrLine_append
          ((checkModule_cases fs package_name base_path mp).1 heq)
          (ih.1 h)
      · intro h
        exact hasErrLine_append_right _ (ih.2 h)
    · rename_i hne
      exact ⟨fun h => absurd h hne,
        fun h => (checkModule_cases fs package_name base_path mp).2 h⟩

theorem vmp_cases (fs : FSys) (package_name : String) (ms : List Toml)
    (base_path : String) :
    ((validate_module_paths fs package_name ms base_path).2 = .ok true →
      noErrLine (validate_module_paths fs package_name ms base_path).1) ∧
    ((validate_module_paths fs package_name ms base_path).2 = .ok false →
      hasErrLine (validate_module_paths fs package_name ms base_path).1)
    := by
  unfold validate_module_paths
  dsimp only []
  split
  · exact ⟨fun h => absurd h (by simp),
      fun _ => hasErrLine_pair _ _ (by
        simp only [String.append_assoc]
        exact isErrMsg_true_mono _ _ (by decide))⟩
  · constructor
    · intro h
      exact noErrLine_cons_checkPath _
        ((modulesLoop_cases fs package_name base_path ms).1 h)
    · intro h
      exact hasErrLine_cons_checkPath _
        ((modulesLoop_cases fs package_name base_path ms).2 h)

theorem packagesLoop_cases (fs : FSys) :
    ∀ (pkgs : List (String × Toml)),
      ((packagesLoop fs pkgs).2 = .ok true →
        noErrLine (packagesLoop fs pkgs).1) ∧
      ((packagesLoop fs pkgs).2 = .ok false →
        hasErrLine (packagesLoop fs pkgs).1) := by
  intro pkgs
  induction pkgs with
  | nil =>
    constructor
    · intro _
      simp only [packagesLoop]
      exact noErrLine_nil
    · intro h
      exact absurd h (by simp [packagesLoop])
  | cons pkg rest ih =>
    obtain ⟨package_name, package_data⟩ := pkg
    simp only [packagesLoop]
    split
    · rename_i heq1
      split
      · exact ⟨fun h => absurd h (by simp), fun h => absurd h (by simp)⟩
      · split
        · rename_i heq2
          constructor
          · intro h
            refine noErrLine_append (noErrLine_append (noErrLine_append
              (noErrLine_line (isErrMsg_false_mono _ _ (by decide)
                (by decide)))
              ((vps_cases package_name package_data).1 heq1))
              ((vmp_cases fs package_name _ "modules").1 heq2))
              (ih.1 h)
          · intro h
            exact hasErrLine_append_right _ (ih.2 h)
        · rename_i hne
          constructor
          · intro h
            exact absurd h hne
          · intro h
            exact hasErrLine_append_right _
              ((vmp_cases fs package_name _ "modules").2 h)
    · rename_i hne
      exact ⟨fun h => absurd h hne,
        fun h => hasErrLine_append_right _
          ((vps_cases package_name package_data).2 h)⟩

end Validate

namespace Validate

theorem vmain_cases (fs : FSys) :
    ((main fs).2 = 0 ∧ noErrLine (main fs).1) ∨
    ((main fs).2 = 1 ∧ hasErrLine (main fs).1) := by
  unfold main
  split
  · exact Or.inr ⟨rfl, hasErrLine_pair _ _ (by decide)⟩
  · dsimp only []
    split
    · exact Or.inr ⟨rfl, hasErrLine_append_right _
        (hasErrLine_line (renderPyErr_isErr _))⟩
    · split
      · exact Or.inr ⟨rfl, hasErrLine_append_right _
          (hasErrLine_line (renderPyErr_isErr _))⟩
      · rename_i heq1
        exact Or.inr ⟨rfl, hasErrLine_append_right _
          ((vlh_cases _).2 heq1)⟩
      · rename_i heq1
        split
        · exact Or.inr ⟨rfl, hasErrLine_append_right _
            (hasErrLine_line (renderPyErr_isErr _))⟩
        · rename_i heq2
          exact Or.inr ⟨rfl, hasErrLine_append_right _
            ((vpk_cases _).2 heq2)⟩
        · rename_i heq2
          split
          · rename_i hpkgs
            split
            · exact Or.inr ⟨rfl, hasErrLine_append_right _
                (hasErrLine_line (renderPyErr_isErr _))⟩
            · rename_i heq3
              exact Or.inr ⟨rfl, hasErrLine_append_right _
                ((packagesLoop_cases fs _).2 heq3)⟩
            · rename_i heq3
              refine Or.inl ⟨rfl, ?_⟩
              refine noErrLine_append (noErrLine_append (noErrLine_append
                (noErrLine_append (noErrLine_start _ _ _ (by decide))
                  ((vlh_cases _).1 heq1))
                ((vpk_cases _).1 heq2))
                ((packagesLoop_cases fs _).1 heq3))
                (noErrLine_line (by
                  simp only [String.append_assoc]
                  exact isErrMsg_false_mono _ _ (by decide) (by decide)))
          · exact Or.inr ⟨rfl, hasErrLine_append_right _
              (hasErrLine_line (renderPyErr_isErr _))⟩
          · rename_i hnone
            obtain ⟨v, hv⟩ := vpk_some _ (validate_packages _).1
              (by rw [← heq2])
            rw [hv] at hnone
            simp at hnone

end Validate

theorem noErrLine_two_lines (s1 s2 : String) (h1 : isErrMsg s1 = false)
    (h2 : isErrMsg s2 = false) : noErrLine [Ev.line s1, Ev.line s2] := by
  intro t ht
  simp [printedLines] at ht
  rcases ht with h | h
  · rw [h]; exact h1
  · rw [h]; exact h2

namespace Scripts

theorem extraResLoop_cases (fs : FSys)
    (base_path package_name module_path : String) :
    ∀ (ers : List ExtraResource),
      ((∀ e, (extraResLoop fs base_path package_name module_path ers).2
          = .error e → isErrMsg e = true) ∧
       ((extraResLoop fs base_path package_name module_path ers).2
          = .ok () →
        noErrLine
          (extraResLoop fs base_path package_name module_path ers).1)) := by
  intro ers
  induction ers with
  | nil =>
    constructor
    · intro e he
      exact absurd he (by simp [extraResLoop])
    · intro _
      simp only [extraResLoop]
      exact noErrLine_nil
  | cons er rest ih =>
    simp only [extraResLoop]
    split
    · constructor
      · intro e he
        rw [Except.error.injEq] at he
        rw [← he]
        simp only [String.append_assoc]
        exact isErrMsg_true_mono _ _ (by decide)
      · intro h
        exact absurd h (by simp)
    · constructor
      · intro e he
        exact ih.1 e he
      · intro h
        exact noErrLine_cons_checkPath _ (ih.2 h)

theorem validate_module_path_cases (fs : FSys)
    (base_path package_name module_path : String) :
    ((∀ e, (validate_module_path fs base_path package_name module_path).2
        = .error e → isErrMsg e = true) ∧
     ((validate_module_path fs base_path package_name module_path).2
        = .ok () →
      noErrLine
        (validate_module_path fs base_path package_name module_path).1))
    := by
  unfold validate_module_path
  dsimp only []
  split
  · constructor
    · intro e he
      rw [Except.error.injEq] at he
      rw [← he]
      simp only [String.append_assoc]
      exact isErrMsg_true_mono _ _ (by decide)
    · intro h
      exact absurd h (by simp)
  · split
    · constructor
      · intro e he
        rw [Except.error.injEq] at he
        rw [← he]
        simp only [String.append_assoc]
        exact isErrMsg_true_mono _ _ (by decide)
      · intro h
        exact absurd h (by simp)
    · split
      · constructor
        · intro e he
          rw [Except.error.injEq] at he
          rw [← he]
          simp only [String.append_assoc]
          exact isErrMsg_true_mono _ _ (by decide)
        · intro h
          exact absurd h (by simp)
      · split
        · constructor
          · intro e he
            rw [Except.error.injEq] at he
            rw [← he]
            simp only [String.append_assoc]
            exact isErrMsg_true_mono _ _ (by decide)
          · intro h
            exact absurd h (by simp)
        · split
          · rename_i heq
            constructor
            · intro e he
              exact absurd he (by simp)
            · intro _
              refine noErrLine_append (noErrLine_append
                (noErrLine_pre _ _ _)
                ((extraResLoop_cases fs base_path package_name
                  module_path _).2 ?_))
                (noErrLine_line (by
                  simp only [String.append_assoc]
                  exact isErrMsg_false_mono _ _ (by decide) (by decide)))
              rw [heq]
          · rename_i mt hparse r e0 heq
            constructor
            · intro e he
              rw [Except.error.injEq] at he
              refine (extraResLoop_cases fs base_path package_name
                module_path mt.extra_resources).1 e ?_
              rw [heq, he]
            · intro h
              exact absurd h (by simp)

end Scripts

namespace Scripts

theorem packageModulesLoop_cases (fs : FSys)
    (base_path package_name : String) :
    ∀ (ms : List String),
      ((∀ e, (packageModulesLoop fs base_path package_name ms).2
          = .error e → isErrMsg e = true) ∧
       ((packageModulesLoop fs base_path package_name ms).2 = .ok () →
        noErrLine (packageModulesLoop fs base_path package_name ms).1))
    := by
  intro ms
  induction ms with
  | nil =>
    constructor
    · intro e he
      exact absurd he (by simp [packageModulesLoop])
    · intro _
      simp only [packageModulesLoop]
      exact noErrLine_nil
  | cons mp rest ih =>
    simp only [packageModulesLoop]
    split
    · rename_i heq
      constructor
      · intro e he
        exact ih.1 e he
      · intro h
        refine noErrLine_append ?_ (ih.2 h)
        have h2 :=
          (validate_module_path_cases fs base_path package_name mp).2
        rw [heq] at h2
        exact h2 rfl
    · rename_i e0 heq
      constructor
      · intro e he
        rw [Except.error.injEq] at he
        refine (validate_module_path_cases fs base_path package_name
          mp).1 e ?_
        rw [heq, he]
      · intro h
        exact absurd h (by simp)

theorem validatePackagesLoop_cases (fs : FSys) (base_path : String) :
    ∀ (pkgs : List (String × Package)),
      ((∀ e, (validatePackagesLoop fs base_path pkgs).2 = .error e →
          isErrMsg e = true) ∧
       ((validatePackagesLoop fs base_path pkgs).2 = .ok () →
        noErrLine (validatePackagesLoop fs base_path pkgs).1)) := by
  intro pkgs
  induction pkgs with
  | nil =>
    constructor
    · intro e he
      exact absurd he (by simp [validatePackagesLoop])
    · intro _
      simp only [validatePackagesLoop]
      exact noErrLine_nil
  | cons pkg rest ih =>
    obtain ⟨package_name, p⟩ := pkg
    simp only [validatePackagesLoop]
    split
    · rename_i heq
      constructor
      · intro e he
        exact ih.1 e he
      · intro h
        refine noErrLine_append (noErrLine_append
          (noErrLine_two_lines _ _
            (isErrMsg_false_mono _ _ (by decide) (by decide))
            (by
              simp only [String.append_assoc]
              exact isErrMsg_false_mono _ _ (by decide) (by decide)))
          ?_) (ih.2 h)
        have h2 :=
          (packageModulesLoop_cases fs base_path package_name p.modules).2
        rw [heq] at h2
        exact h2 rfl
    · rename_i e0 heq
      constructor
      · intro e he
        rw [Except.error.injEq] at he
        refine (packageModulesLoop_cases fs base_path package_name
          p.modules).1 e ?_
        rw [heq, he]
      · intro h
        exact absurd h (by simp)

theorem validate_cases (fs : FSys) :
    ((∀ e, (validate fs).2 = .error e → isErrMsg e = true) ∧
     ((validate fs).2 = .ok () → noErrLine (validate fs).1)) := by
  unfold validate
  dsimp only []
  split
  · constructor
    · intro e he
      rw [Except.error.injEq] at he
      rw [← he]
      decide
    · intro h
      exact absurd h (by simp)
  · split
    · constructor
      · intro e he
        rw [Except.error.injEq] at he
        rw [← he]
        decide
      · intro h
        exact absurd h (by simp)
    · split
      · constructor
        · intro e he
          rw [Except.error.injEq] at he
          rw [← he]
          exact isErrMsg_true_mono _ _ (by decide)
        · intro h
          exact absurd h (by simp)
      · split
        · constructor
          · intro e he
            rw [Except.error.injEq] at he
            rw [← he]
            exact isErrMsg_true_mono _ _ (by decide)
          · intro h
            exact absurd h (by simp)
        · split
          · rename_i pt hparse r u heq
            constructor
            · intro e he
              exact absurd he (by simp)
            · intro _
              refine noErrLine_append (noErrLine_append (noErrLine_append
                (noErrLine_append (noErrLine_pre _ _ _)
                  (noErrLine_line (by decide)))
                (noErrLine_two_lines _ _ (by decide) (by
                  simp only [String.append_assoc]
                  exact isErrMsg_false_mono _ _ (by decide) (by decide))))
                ?_)
                (noErrLine_line (by
                  simp only [String.append_assoc]
                  exact isErrMsg_false_mono _ _ (by decide) (by decide)))
              exact (validatePackagesLoop_cases fs "modules"
                pt.packages).2 heq
          · rename_i pt hparse r e0 heq
            constructor
            · intro e he
              rw [Except.error.injEq] at he
              refine (validatePackagesLoop_cases fs "modules"
                pt.packages).1 e ?_
              rw [heq, he]
            · intro h
              exact absurd h (by simp)

theorem smain_cases (fs : FSys) :
    ((main fs).2 = 0 ∧ noErrLine (main fs).1) ∨
    ((main fs).2 = 1 ∧ hasErrLine (main fs).1) := by
  unfold main
  dsimp only []
  split
  · rename_i heq
    refine Or.inl ⟨rfl, ?_⟩
    have h2 := (validate_cases fs).2
    rw [heq] at h2
    exact h2 rfl
  · rename_i e heq
    refine Or.inr ⟨rfl, hasErrLine_append_right _ (hasErrLine_line ?_)⟩
    exact (validate_cases fs).1 e heq

end Scripts

/-- C3 (amended): both manifest validators exit 0 exactly on runs that
print no error diagnostic and exit 1 exactly on runs that print one, and
the CDN sync exits non-zero when the credential variable is missing; but a
CDN sync run whose local source path is not a valid directory prints an
error message and still terminates with exit status 0. -/
theorem C3_amended :
    (∀ (fs : FSys),
      ((Validate.main fs).2 = 0 ∧ noErrLine (Validate.main fs).1) ∨
      ((Validate.main fs).2 = 1 ∧ hasErrLine (Validate.main fs).1)) ∧
    (∀ (fs : FSys),
      ((Scripts.main fs).2 = 0 ∧ noErrLine (Scripts.main fs).1) ∨
      ((Scripts.main fs).2 = 1 ∧ hasErrLine (Scripts.main fs).1)) ∧
    (∀ (w : CdnSync.World) (local_dir destPfx : String),
      w.isDir = true → CdnSync.falsyEnv w.env = true →
      (CdnSync.sync_local_to_gcs w local_dir destPfx).exitCode = 1) ∧
    (∀ (w : CdnSync.World) (local_dir destPfx : String),
      w.isDir = false →
      (CdnSync.sync_local_to_gcs w local_dir destPfx).exitCode = 0 ∧
      (CdnSync.sync_local_to_gcs w local_dir destPfx).msgs
        = ["Error: " ++ local_dir ++ " is not a valid directory."]) := by
  refine ⟨Validate.vmain_cases, Scripts.smain_cases, ?_, ?_⟩
  · intro w local_dir destPfx h1 h2
    simp [CdnSync.sync_local_to_gcs, h1, h2]
  · intro w local_dir destPfx h1
    constructor <;> simp [CdnSync.sync_local_to_gcs, h1]

/-- C3 amended witness: a sync run with an empty credential variable and a
valid directory exits 1; a sync run with an invalid directory exits 0. -/
theorem C3_amended_witness :
    ((⟨true, [], some "", []⟩ : CdnSync.World).isDir = true ∧
     CdnSync.falsyEnv (⟨true, [], some "", []⟩ : CdnSync.World).env
       = true ∧
     (CdnSync.sync_local_to_gcs ⟨true, [], some "", []⟩ "data"
        "toolkit").exitCode = 1) ∧
    ((⟨false, [], some "cred", []⟩ : CdnSync.World).isDir = false ∧
     (CdnSync.sync_local_to_gcs ⟨false, [], some "cred", []⟩ "data"
        "toolkit").exitCode = 0) :=
  ⟨⟨rfl, rfl, C3_amended.2.2.1 ⟨true, [], some "", []⟩ "data" "toolkit"
      rfl rfl⟩,
   ⟨rfl, (C3_amended.2.2.2 ⟨false, [], some "cred", []⟩ "data" "toolkit"
      rfl).1⟩⟩
